import Mathlib

set_option maxRecDepth 100000
set_option maxHeartbeats 2000000

/-!
Verification of the MyJobInMap ingestion-and-lifecycle pipeline.

This file gives a shallow embedding, in Lean 4, of the core services of the
repository:

* `server/app/services/task_state_machine.py` (status transition table),
* `server/app/services/task_service.py` (create / update_status / assign),
* `server/app/services/geocoding.py` (address normalization, cache, fallback
  geocoding, priority and ticket-number extraction),
* `server/app/services/task_parser.py` (dispatcher / standard message parser),
* `server/app/api/tasks.py` (`create_task_from_text` endpoint),

together with theorems settling the specification's claims about them.

The Python code relies heavily on the `re` module, so the embedding starts
with a small executable backtracking regular-expression engine over
`List Char`, mirroring CPython `re` semantics for the constructs the
repository actually uses: literals, character classes, alternation (leftmost
preference), greedy and lazy repetition, capture groups, word boundaries,
the `$` anchor, `re.IGNORECASE`, `re.search`, `re.match`, `re.sub` and
`re.split`.  Matches are enumerated in backtracking priority order and the
head of the enumeration is the match CPython would return.
-/

namespace Rx

/-- Python `str.isspace`-style whitespace, as used by `\s` and `str.strip()`
(ASCII space, tab, newline, vertical tab, form feed, carriage return). -/
def isSpc (c : Char) : Bool :=
  c = ' ' || c = '\t' || c = '\n' || c = '\x0b' || c = '\x0c' || c = '\r'

/-- ASCII decimal digit, the `\d` class on the repository's inputs. -/
def isDig (c : Char) : Bool := '0' ≤ c && c ≤ '9'

/-- Cyrillic capital letter А–Я or Ё. -/
def isCyrUpper (c : Char) : Bool :=
  ('А' ≤ c && c ≤ 'Я') || c = 'Ё'

/-- Cyrillic small letter а–я or ё. -/
def isCyrLower (c : Char) : Bool :=
  ('а' ≤ c && c ≤ 'я') || c = 'ё'

/-- `\w`: letters (Latin or Cyrillic), digits, underscore. -/
def isWordChar (c : Char) : Bool :=
  isDig c || ('a' ≤ c && c ≤ 'z') || ('A' ≤ c && c ≤ 'Z') ||
  isCyrUpper c || isCyrLower c || c = '_'

/-- Lower-casing covering ASCII and the Cyrillic block, the effect of
Python `str.lower()` / `re.IGNORECASE` on the repository's inputs. -/
def low (c : Char) : Char :=
  if 'A' ≤ c && c ≤ 'Z' then Char.ofNat (c.toNat + 32)
  else if 'А' ≤ c && c ≤ 'Я' then Char.ofNat (c.toNat + 32)
  else if c = 'Ё' then 'ё'
  else c

/-- Regular expressions, restricted to the constructs the repository uses.
`cls` carries a character predicate; `star true` is greedy, `star false`
lazy; `grp` is a numbered capture group; `bow` is `\b`; `eos` is `$`. -/
inductive Re : Type where
  | eps : Re
  | cls : (Char → Bool) → Re
  | seq : Re → Re → Re
  | alt : Re → Re → Re
  | star : Bool → Re → Re
  | grp : Nat → Re → Re
  | bow : Re
  | eos : Re

/-- Captured groups: number paired with captured text, most recent first. -/
abbrev Groups := List (Nat × String)

/-- One way a pattern can match a prefix of `s`: the remaining suffix, the
character just before that suffix (for `\b`), the groups captured so far,
and a bound showing the suffix is no longer than the input. -/
structure MOut (s : List Char) : Type where
  rest : List Char
  prev : Option Char
  grps : Groups
  hle : rest.length ≤ s.length

/-- `\b` holds between a word character and a non-word character (or edge). -/
def atWordBoundary (prev : Option Char) (s : List Char) : Bool :=
  let pw := match prev with | some c => isWordChar c | none => false
  let nw := match s with | c :: _ => isWordChar c | [] => false
  pw != nw

/-- `$` without `re.MULTILINE`: end of input, or just before a final
newline. -/
def atEos (s : List Char) : Bool := s = [] || s = ['\n']

/-- Iterate a repetition body whose matches are produced by `f`.  Only
iterations that consume at least one character are continued (the
repository's repetition bodies never match the empty string); the
zero-iteration outcome is appended last for a greedy star and first for a
lazy one, reproducing backtracking priority order.  `fuel` is structural
fuel; called with `s.length + 1` it never runs out, since every continued
iteration strictly shortens the suffix. -/
def starIter (f : (s : List Char) → Option Char → Groups → List (MOut s))
    (greedy : Bool) : Nat → (s : List Char) → Option Char → Groups → List (MOut s)
  | 0, s, p, g => [⟨s, p, g, Nat.le_refl _⟩]
  | fuel + 1, s, p, g =>
    let step := (f s p g).filter (fun m => m.rest.length < s.length)
    let go := step.attach.flatMap (fun mh =>
      have hlt : mh.1.rest.length < s.length := by
        have := List.mem_filter.mp mh.2
        exact of_decide_eq_true this.2
      (starIter f greedy fuel mh.1.rest mh.1.prev mh.1.grps).map
        (fun m2 => ⟨m2.rest, m2.prev, m2.grps,
          le_trans m2.hle (Nat.le_of_lt hlt)⟩))
    if greedy then go ++ [⟨s, p, g, Nat.le_refl _⟩]
    else ⟨s, p, g, Nat.le_refl _⟩ :: go

/-- All ways `r` can match a prefix of `s`, in backtracking priority order
(the head is the match CPython's backtracking engine commits to).  `p` is
the character immediately before `s` in the full haystack. -/
def mtch : Re → (s : List Char) → (p : Option Char) → (g : Groups) → List (MOut s)
  | .eps, s, p, g => [⟨s, p, g, Nat.le_refl _⟩]
  | .cls f, s, _, g =>
    match s with
    | [] => []
    | c :: t => if f c then [⟨t, some c, g, Nat.le_succ_of_le (Nat.le_refl _)⟩] else []
  | .seq a b, s, p, g =>
    (mtch a s p g).flatMap (fun m =>
      (mtch b m.rest m.prev m.grps).map (fun m2 =>
        ⟨m2.rest, m2.prev, m2.grps, le_trans m2.hle m.hle⟩))
  | .alt a b, s, p, g => mtch a s p g ++ mtch b s p g
  | .star greedy r, s, p, g => starIter (mtch r) greedy (s.length + 1) s p g
  | .grp i r, s, p, g =>
    (mtch r s p g).map (fun m =>
      ⟨m.rest, m.prev,
        (i, String.mk (s.take (s.length - m.rest.length))) :: m.grps, m.hle⟩)
  | .bow, s, p, g => if atWordBoundary p s then [⟨s, p, g, Nat.le_refl _⟩] else []
  | .eos, s, p, g => if atEos s then [⟨s, p, g, Nat.le_refl _⟩] else []

/-! Smart constructors translating the concrete pattern syntax. -/

/-- Case-sensitive literal character. -/
def chr (c : Char) : Re := .cls (fun x => x = c)

/-- Case-insensitive literal character (`re.IGNORECASE`). -/
def chrCI (c : Char) : Re := .cls (fun x => low x = low c)

/-- `.`: any character except newline. -/
def dot : Re := .cls (fun x => x ≠ '\n')

def seqL (l : List Re) : Re := l.foldr .seq .eps

/-- Case-sensitive literal string. -/
def strS (s : String) : Re := seqL (s.data.map chr)

/-- Case-insensitive literal string. -/
def strCI (s : String) : Re := seqL (s.data.map chrCI)

def altL (l : List Re) : Re :=
  match l with
  | [] => .eps
  | [r] => r
  | r :: t => .alt r (altL t)

/-- `r?` (greedy). -/
def opt (r : Re) : Re := .alt r .eps

/-- `r??` (lazy). -/
def optLazy (r : Re) : Re := .alt .eps r

/-- `r+` (greedy). -/
def plus (r : Re) : Re := .seq r (.star true r)

/-- `r+?` (lazy). -/
def plusLazy (r : Re) : Re := .seq r (.star false r)

/-- `r{n}`: exactly `n` copies. -/
def repN : Nat → Re → Re
  | 0, _ => .eps
  | n + 1, r => .seq r (repN n r)

/-- `r{lo,hi}` (greedy): `lo` copies then up to `hi - lo` optional ones. -/
def repRange (lo hi : Nat) (r : Re) : Re :=
  .seq (repN lo r) (optUpTo (hi - lo) r)
where
  optUpTo : Nat → Re → Re
    | 0, _ => .eps
    | n + 1, r => opt (.seq r (optUpTo n r))

/-- The match CPython commits to when matching `r` at the start of `s`
(with `p` the preceding character): consumed prefix, groups, suffix. -/
def matchHere (r : Re) (p : Option Char) (s : List Char) :
    Option (List Char × Groups × List Char) :=
  match (mtch r s p []).head? with
  | none => none
  | some m => some (s.take (s.length - m.rest.length), m.grps, m.rest)

/-- Result of a successful `re.search`: text before the match, the matched
text, the captured groups, and the text after the match. -/
structure SRes : Type where
  pre : String
  mat : String
  grps : Groups
  post : String
deriving DecidableEq, Repr

/-- `match.group(n)`: most recent capture of group `n`, if any. -/
def SRes.grp (m : SRes) (n : Nat) : Option String :=
  (m.grps.find? (fun x => x.1 = n)).map (fun x => x.2)

/-- `match.end()` as a character offset into the haystack. -/
def SRes.endPos (m : SRes) : Nat := m.pre.length + m.mat.length

def searchAux (r : Re) : Option Char → List Char → List Char → Option SRes
  | p, acc, s =>
    match matchHere r p s with
    | some (con, g, rest) => some ⟨String.mk acc.reverse, String.mk con, g, String.mk rest⟩
    | none =>
      match s with
      | [] => none
      | c :: t => searchAux r (some c) (c :: acc) t

/-- `re.search(r, s)`: leftmost match, scanning positions left to right. -/
def reSearch (r : Re) (s : String) : Option SRes :=
  searchAux r none [] s.data

/-- `re.match(r, s)`: match anchored at the start of `s`. -/
def reMatch (r : Re) (s : String) : Option SRes :=
  match matchHere r none s.data with
  | some (con, g, rest) => some ⟨"", String.mk con, g, String.mk rest⟩
  | none => none

/-- Scan of `re.sub`, with structural fuel (`s.length + 1` at entry never
runs out: every step either consumes a non-empty match or advances one
character). -/
def subAux (r : Re) (repl : Groups → String) :
    Nat → Option Char → List Char → String → String
  | 0, _, s, acc => acc ++ String.mk s
  | fuel + 1, p, s, acc =>
    match matchHere r p s with
    | some (con, g, rest) =>
      if con = [] then
        match s with
        | [] => acc ++ repl g
        | c :: t => subAux r repl fuel (some c) t (acc ++ repl g ++ String.mk [c])
      else
        subAux r repl fuel con.getLast? rest (acc ++ repl g)
    | none =>
      match s with
      | [] => acc
      | c :: t => subAux r repl fuel (some c) t (acc ++ String.mk [c])

/-- `re.sub(r, repl, s)`: replace every non-overlapping match, left to
right; `repl` may consult the captured groups (for `\1` templates). -/
def reSub (r : Re) (repl : Groups → String) (s : String) : String :=
  subAux r repl (s.data.length + 1) none s.data ""

/-- `re.sub` with a plain replacement string. -/
def reSubS (r : Re) (repl : String) (s : String) : String :=
  reSub r (fun _ => repl) s

/-- Scan of `re.split`, with the same structural-fuel scheme as `subAux`. -/
def splitAux (r : Re) :
    Nat → Option Char → List Char → List Char → List String → List String
  | 0, _, cur, s, acc => ((String.mk (cur.reverse ++ s)) :: acc).reverse
  | fuel + 1, p, cur, s, acc =>
    match matchHere r p s with
    | some (con, _, rest) =>
      if con = [] then
        match s with
        | [] => ((String.mk cur.reverse) :: acc).reverse
        | c :: t => splitAux r fuel (some c) (c :: cur) t acc
      else
        splitAux r fuel con.getLast? [] rest ((String.mk cur.reverse) :: acc)
    | none =>
      match s with
      | [] => ((String.mk cur.reverse) :: acc).reverse
      | c :: t => splitAux r fuel (some c) (c :: cur) t acc

/-- `re.split(r, s)` for patterns without capture groups and that cannot
match the empty string. -/
def reSplit (r : Re) (s : String) : List String :=
  splitAux r (s.data.length + 1) none [] s.data []

end Rx

namespace Py

/-! Python `str` built-ins used by the services, over Lean `String`. -/

/-- `needle` occurs as a contiguous run inside `hay` (Python `in`). -/
def startsL : List Char → List Char → Bool
  | [], _ => true
  | _ :: _, [] => false
  | a :: as, b :: bs => a == b && startsL as bs

def infixL (needle : List Char) : List Char → Bool
  | [] => startsL needle []
  | c :: t => startsL needle (c :: t) || infixL needle t

/-- Python `needle in hay`. -/
def pyIn (needle hay : String) : Bool := infixL needle.data hay.data

/-- Python `str.lower()` (ASCII and Cyrillic). -/
def pyLower (s : String) : String := String.mk (s.data.map Rx.low)

def dropEnd (p : Char → Bool) : List Char → List Char
  | [] => []
  | c :: t =>
    match dropEnd p t with
    | [] => if p c then [] else [c]
    | r => c :: r

/-- Python `str.strip()` / `str.strip(chars)` core. -/
def pyStripP (p : Char → Bool) (s : String) : String :=
  String.mk (dropEnd p (s.data.dropWhile p))

/-- Python `str.strip()`. -/
def pyStrip (s : String) : String := pyStripP Rx.isSpc s

/-- Python `str.strip(chars)`. -/
def pyStripChars (chars : String) (s : String) : String :=
  pyStripP (fun c => chars.data.contains c) s

/-- Python `str.rstrip(chars)`. -/
def pyRStripChars (chars : String) (s : String) : String :=
  String.mk (dropEnd (fun c => chars.data.contains c) s.data)

/-- Python `str.startswith(needle)` (over code points; `String.startsWith`
works on byte positions, which the kernel cannot evaluate). -/
def pyStarts (needle s : String) : Bool := startsL needle.data s.data

/-- Python `str.split(sep)` for a one-character separator (keeps empty
pieces, `"".split(sep) == [""]`). -/
def splitCh (sep : Char) : List Char → List (List Char)
  | [] => [[]]
  | c :: t =>
    if c = sep then [] :: splitCh sep t
    else
      match splitCh sep t with
      | [] => [[c]]
      | p :: ps => (c :: p) :: ps

/-- Python `str.split(sep)` over `String`. -/
def pySplitChar (sep : Char) (s : String) : List String :=
  (splitCh sep s.data).map String.mk

end Py

namespace App

open Rx Py

/-! ### `app/models/enums.py` -/

/-- `TaskStatus(str, Enum)` from `app/models/enums.py`. -/
inductive TaskStatus : Type where
  | NEW | IN_PROGRESS | DONE | CANCELLED
deriving DecidableEq, Repr

/-- The `.value` string of each `TaskStatus` member. -/
def TaskStatus.value : TaskStatus → String
  | .NEW => "NEW"
  | .IN_PROGRESS => "IN_PROGRESS"
  | .DONE => "DONE"
  | .CANCELLED => "CANCELLED"

/-- `TaskPriority(str, Enum)` from `app/models/enums.py`. -/
inductive TaskPriority : Type where
  | PLANNED | CURRENT | URGENT | EMERGENCY
deriving DecidableEq, Repr

/-- The `.value` string of each `TaskPriority` member. -/
def TaskPriority.value : TaskPriority → String
  | .PLANNED => "PLANNED"
  | .CURRENT => "CURRENT"
  | .URGENT => "URGENT"
  | .EMERGENCY => "EMERGENCY"

/-! ### `app/services/task_state_machine.py` -/

namespace TaskStatusMachine

/-- `TaskStatusMachine.VALID_TRANSITIONS`, as the lookup
`VALID_TRANSITIONS.get(from_status, set())` (membership is all that the
code uses; the dictionary is keyed by status `.value` strings). -/
def VALID_TRANSITIONS (from_status : String) : List String :=
  if from_status = "NEW" then ["IN_PROGRESS", "CANCELLED"]
  else if from_status = "IN_PROGRESS" then ["DONE", "CANCELLED"]
  else if from_status = "DONE" then ["IN_PROGRESS", "NEW"]
  else if from_status = "CANCELLED" then ["NEW", "IN_PROGRESS"]
  else []

/-- `TaskStatusMachine.is_valid_transition`. -/
def is_valid_transition (from_status to_status : String) : Bool :=
  if from_status = to_status then true
  else (VALID_TRANSITIONS from_status).contains to_status

/-- `TaskStatusMachine.get_valid_transitions`. -/
def get_valid_transitions (current_status : String) : List String :=
  VALID_TRANSITIONS current_status

end TaskStatusMachine

/-! ### `app/services/geocoding.py`: priority / ticket-number extraction -/

/-- `GeocodingService.extract_priority`. -/
def extract_priority (text : String) : String :=
  let text_lower := pyLower text
  if pyIn ("аварийн") text_lower then TaskPriority.EMERGENCY.value
  else if pyIn ("срочн") text_lower then TaskPriority.URGENT.value
  else if pyIn ("текущ") text_lower then TaskPriority.CURRENT.value
  else TaskPriority.PLANNED.value

def digit : Re := Re.cls isDig
def spc : Re := Re.cls isSpc
def nonSpc : Re := Re.cls (fun c => ¬ isSpc c)
def spcStar : Re := Re.star true spc
def spcPlus : Re := plus spc

/-- `r'\[(\d{5,10})\]'` -/
def patNumBracket : Re := seqL [chr '[', Re.grp 1 (repRange 5 10 digit), chr ']']

/-- `r'№\s*(\d{5,10})'` -/
def patNumMark : Re := seqL [chr '№', spcStar, Re.grp 1 (repRange 5 10 digit)]

/-- `r'#(\d{5,10})'` -/
def patNumHash : Re := seqL [chr '#', Re.grp 1 (repRange 5 10 digit)]

/-- `r'заявка\s*(\d{5,10})'` (applied with `re.IGNORECASE`) -/
def patNumWord : Re := seqL [strCI "заявка", spcStar, Re.grp 1 (repRange 5 10 digit)]

/-- `GeocodingService.extract_task_number`: first of the four patterns that
matches yields its group 1; otherwise the empty string. -/
def extract_task_number (text : String) : String :=
  match reSearch patNumBracket text with
  | some m => (m.grp 1).getD ""
  | none =>
    match reSearch patNumMark text with
    | some m => (m.grp 1).getD ""
    | none =>
      match reSearch patNumHash text with
      | some m => (m.grp 1).getD ""
      | none =>
        match reSearch patNumWord text with
        | some m => (m.grp 1).getD ""
        | none => ""

/-! ### `app/services/geocoding.py`: `normalize_address`

Each `(pattern, replacement)` pair of the Python `replacements` list is
translated below; all are applied with `flags=re.IGNORECASE`. -/

/-- Group-1 text for `\1` replacement templates. -/
def g1 (g : Groups) : String :=
  ((g.find? (fun x => x.1 = 1)).map (fun x => x.2)).getD ""

/-- `r'Лен\.?\s*обл\.?'` -/
def patLenObl : Re := seqL [strCI "Лен", opt (chr '.'), spcStar, strCI "обл", opt (chr '.')]

/-- `r'\bЛ\.?О\.?\b'` -/
def patLO : Re := seqL [Re.bow, chrCI 'Л', opt (chr '.'), chrCI 'О', opt (chr '.'), Re.bow]

/-- `r'\bСПб\b'` -/
def patSpb : Re := seqL [Re.bow, strCI "СПб", Re.bow]

/-- `r'\bС-Пб\b'` -/
def patSpb2 : Re := seqL [Re.bow, strCI "С-Пб", Re.bow]

/-- `r'\bМск\b'` -/
def patMsk : Re := seqL [Re.bow, strCI "Мск", Re.bow]

/-- `r'\bгп\.?\s+'` -/
def patGp : Re := seqL [Re.bow, strCI "гп", opt (chr '.'), spcPlus]

/-- `r'\bг\.п\.?\s+'` -/
def patGp2 : Re := seqL [Re.bow, chrCI 'г', chr '.', chrCI 'п', opt (chr '.'), spcPlus]

/-- `r'\bпос\.\s+'` -/
def patPos : Re := seqL [Re.bow, strCI "пос", chr '.', spcPlus]

/-- `r'\bул\.\s*'` -/
def patUl : Re := seqL [Re.bow, strCI "ул", chr '.', spcStar]

/-- `r'\bпр\.\s*'` -/
def patPr : Re := seqL [Re.bow, strCI "пр", chr '.', spcStar]

/-- `r'\bпр-т\.?\s*'` -/
def patPrT : Re := seqL [Re.bow, strCI "пр-т", opt (chr '.'), spcStar]

/-- `r'\bш\.\s*'` -/
def patSh : Re := seqL [Re.bow, chrCI 'ш', chr '.', spcStar]

/-- `r'\bбул\.\s*'` -/
def patBul : Re := seqL [Re.bow, strCI "бул", chr '.', spcStar]

/-- `r'\bпер\.\s*'` -/
def patPer : Re := seqL [Re.bow, strCI "пер", chr '.', spcStar]

/-- `r'\bнаб\.\s*'` -/
def patNab : Re := seqL [Re.bow, strCI "наб", chr '.', spcStar]

/-- `r'\bд\.\s*'` -/
def patDom : Re := seqL [Re.bow, chrCI 'д', chr '.', spcStar]

/-- `r'\bкорп\.\s*(\d)'` -/
def patKorp : Re := seqL [Re.bow, strCI "корп", chr '.', spcStar, Re.grp 1 digit]

/-- `r'\bк\.\s*(\d)'` -/
def patK : Re := seqL [Re.bow, chrCI 'к', chr '.', spcStar, Re.grp 1 digit]

/-- `r'\bстр\.\s*(\d)'` -/
def patStr : Re := seqL [Re.bow, strCI "стр", chr '.', spcStar, Re.grp 1 digit]

/-- `r'\bлит\.\s*'` -/
def patLit : Re := seqL [Re.bow, strCI "лит", chr '.', spcStar]

/-- The `replacements` list of `normalize_address`, in source order. -/
def replacements : List (Re × (Groups → String)) :=
  [ (patLenObl, fun _ => "Ленинградская область"),
    (patLO, fun _ => "Ленинградская область"),
    (patSpb, fun _ => "Санкт-Петербург"),
    (patSpb2, fun _ => "Санкт-Петербург"),
    (patMsk, fun _ => "Москва"),
    (patGp, fun _ => ""),
    (patGp2, fun _ => ""),
    (patPos, fun _ => ""),
    (patUl, fun _ => "улица "),
    (patPr, fun _ => "проспект "),
    (patPrT, fun _ => "проспект "),
    (patSh, fun _ => "шоссе "),
    (patBul, fun _ => "бульвар "),
    (patPer, fun _ => "переулок "),
    (patNab, fun _ => "набережная "),
    (patDom, fun _ => "дом "),
    (patKorp, fun g => "корпус " ++ g1 g),
    (patK, fun g => "корпус " ++ g1 g),
    (patStr, fun g => "строение " ++ g1 g),
    (patLit, fun _ => "литера ") ]

/-- `r',?\s*подъезд\s*[^\.,]*'` -/
def patEntrance : Re :=
  seqL [opt (chr ','), spcStar, strCI "подъезд", spcStar,
        Re.star true (Re.cls (fun c => ¬ (c = '.' ∨ c = ',')))]

/-- `r',?\s*кв\.?\s*\d+'` -/
def patKv : Re :=
  seqL [opt (chr ','), spcStar, strCI "кв", opt (chr '.'), spcStar, plus digit]

/-- `r'\+?\d{10,11}'` -/
def patPhone10 : Re := seqL [opt (chr '+'), repRange 10 11 digit]

/-- `r'\d{3}-\d{2}-\d{2}'` -/
def patPhoneDash : Re :=
  seqL [repN 3 digit, chr '-', repN 2 digit, chr '-', repN 2 digit]

/-- `r'заявка\s*№?\s*\d+'` -/
def patZayavka : Re :=
  seqL [strCI "заявка", spcStar, opt (chr '№'), spcStar, plus digit]

/-- `r'№\s*\d+'` -/
def patNumAny : Re := seqL [chr '№', spcStar, plus digit]

/-- `r'\b(Плановая|Текущая|Срочная|Аварийная)\.?'` -/
def patPrioWord : Re :=
  seqL [Re.bow,
        Re.grp 1 (altL [strCI "Плановая", strCI "Текущая", strCI "Срочная", strCI "Аварийная"]),
        opt (chr '.')]

/-- `r'\d+\s*шт'` -/
def patSht : Re := seqL [plus digit, spcStar, strCI "шт"]

/-- `r',\s*\d+\s*,'` -/
def patNumBetween : Re := seqL [chr ',', spcStar, plus digit, spcStar, chr ',']

/-- `r',\s*\d+\s*$'` -/
def patNumTrail : Re := seqL [chr ',', spcStar, plus digit, spcStar, Re.eos]

/-- `r'деньги\s+у\s+\S+'` -/
def patMoney : Re := seqL [strCI "деньги", spcPlus, chrCI 'у', spcPlus, plus nonSpc]

/-- `r'\(Диспетчер[^)]*\)'` -/
def patDispatcherParen : Re :=
  seqL [chr '(', strCI "Диспетчер", Re.star true (Re.cls (fun c => c ≠ ')')), chr ')']

/-- `r'Доп\.?\s*инф\.?:.*'` -/
def patDopInf : Re :=
  seqL [strCI "Доп", opt (chr '.'), spcStar, strCI "инф", opt (chr '.'), chr ':',
        Re.star true dot]

/-- The `cleanup_patterns` list of `normalize_address`, in source order. -/
def cleanup_patterns : List Re :=
  [patEntrance, patKv, patPhone10, patPhoneDash, patZayavka, patNumAny,
   patPrioWord, patSht, patNumBetween, patNumTrail, patMoney,
   patDispatcherParen, patDopInf]

/-- The `problem_keywords` list of `normalize_address`. -/
def problem_keywords : List String :=
  ["работает", "сломан", "вызов", "брелок", "ключ", "карт",
   "трубк", "замен", "ремонт", "открыт", "закрыт", "программ",
   "домофон", "почта", "мусор", "этаж", "дверь", "двери"]

/-- One iteration of the segment-filter loop: `continue` on an empty or
all-digit segment and on a segment mentioning a problem keyword. -/
def keepPart (part : String) : Option String :=
  let part := pyStrip part
  if part = "" then none
  else if (reMatch (Re.seq (plus digit) Re.eos) part).isSome then none
  else if problem_keywords.any (fun kw => pyIn kw (pyLower part)) then none
  else some part

/-- Ordered application of the `replacements` substitutions (steps 1–3 of
the spec's normalization passes). -/
def replStage (s : String) : String :=
  replacements.foldl (fun acc pr => reSub pr.1 pr.2 acc) s

/-- Ordered application of the `cleanup_patterns` deletions (step 4). -/
def cleanupStage (s : String) : String :=
  cleanup_patterns.foldl (fun acc p => reSubS p ("") acc) s

/-- `result.split('.')` filtered by the problem-vocabulary loop (step 5). -/
def partsKept (s : String) : List String :=
  (pySplitChar '.' s).filterMap keepPart

/-- `', '.join(address_parts) if address_parts else result`. -/
def joinStage (kept : List String) (pre : String) : String :=
  if kept ≠ [] then String.intercalate (", ") kept else pre

/-- `r'\s+'` -/
def patWs : Re := plus spc

/-- `r'\s*,\s*'` -/
def patCommaWs : Re := seqL [spcStar, chr ',', spcStar]

/-- Final whitespace/punctuation normalization of `normalize_address`. -/
def finalStage (s : String) : String :=
  let r := pyStripChars (" ,.") (reSubS patWs (" ") s)
  reSubS patCommaWs (", ") r

/-- `GeocodingService.normalize_address`. -/
def normalize_address (address : String) : String :=
  let r1 := replStage address
  let r2 := cleanupStage r1
  finalStage (joinStage (partsKept r2) r2)

/-! ### `app/services/geocoding.py`: cache and `geocode` -/

/-- Coordinates as exact rationals.  The service performs no arithmetic on
coordinates: it only passes values through from the lookup collaborator,
so `ℚ × ℚ` represents the `(lat, lon)` float pair exactly, with `(0, 0)`
the not-resolved sentinel. -/
abbrev Coord := ℚ × ℚ

/-- Outcome of one `self.geolocator.geocode(query)` call: a location, a
`None` answer, or a raised `GeocoderTimedOut` / `GeocoderServiceError` /
other exception. -/
inductive LookupResult : Type where
  | found : Coord → LookupResult
  | notFound : LookupResult
  | err : LookupResult
deriving DecidableEq, Repr

/-- External lookup collaborator: the result of the `n`-th outbound call
(counted across the service's lifetime) on a given query string. -/
abbrev LookupEnv := Nat → String → LookupResult

/-- Mutable state of `GeocodingService`: the insertion-ordered `_cache`
dictionary, plus a count of outbound lookup calls made so far (used to
index into the `LookupEnv` and to observe how many calls an operation
performed). -/
structure GeoState : Type where
  cache : List (String × Coord)
  calls : Nat
deriving DecidableEq, Repr

/-- `settings.GEOCODING_CACHE_SIZE` default. -/
def GEOCODING_CACHE_SIZE : Nat := 1000

/-- `GeocodingService._get_from_cache` (`dict.get`). -/
def _get_from_cache (cache : List (String × Coord)) (key : String) : Option Coord :=
  (cache.find? (fun p => p.1 = key)).map (fun p => p.2)

/-- `self._cache[key] = coords` on an insertion-ordered dictionary:
update in place if present, else append. -/
def dictSet (l : List (String × Coord)) (k : String) (v : Coord) :
    List (String × Coord) :=
  if (l.find? (fun p => p.1 = k)).isSome then
    l.map (fun p => if p.1 = k then (k, v) else p)
  else l ++ [(k, v)]

/-- `GeocodingService._add_to_cache`: when the cache has reached
`maxSize`, delete the first 100 keys (batch FIFO), then insert. -/
def _add_to_cache (maxSize : Nat) (cache : List (String × Coord))
    (key : String) (coords : Coord) : List (String × Coord) :=
  let cache := if cache.length ≥ maxSize then cache.drop 100 else cache
  dictSet cache key coords

/-- `r'(\S+)\s+(улица|проспект|шоссе|бульвар|переулок|набережная)'` -/
def patStreet1 : Re :=
  seqL [Re.grp 1 (plus nonSpc), spcPlus,
        Re.grp 2 (altL [strCI "улица", strCI "проспект", strCI "шоссе",
                        strCI "бульвар", strCI "переулок", strCI "набережная"])]

/-- `r'(улица|проспект|шоссе|бульвар|переулок|набережная)\s+(\S+)'` -/
def patStreet2 : Re :=
  seqL [Re.grp 1 (altL [strCI "улица", strCI "проспект", strCI "шоссе",
                        strCI "бульвар", strCI "переулок", strCI "набережная"]),
        spcPlus, Re.grp 2 (plus nonSpc)]

/-- `r'(?:дом|д\.?)\s*(\d+)'` -/
def patHouse : Re :=
  seqL [altL [strCI "дом", Re.seq (chrCI 'д') (opt (chr '.'))],
        spcStar, Re.grp 1 (plus digit)]

/-- `r'(?:корпус|корп\.?|к\.?)\s*(\d+)'` -/
def patCorp : Re :=
  seqL [altL [strCI "корпус", Re.seq (strCI "корп") (opt (chr '.')),
              Re.seq (chrCI 'к') (opt (chr '.'))],
        spcStar, Re.grp 1 (plus digit)]

/-- `r'область\s+(\S+)'` -/
def patSettlement : Re := seqL [strCI "область", spcPlus, Re.grp 1 (plus nonSpc)]

/-- The street designators tested by
`street_match.group(2).lower() in [...]`. -/
def streetTypes : List String :=
  ["улица", "проспект", "шоссе", "бульвар", "переулок", "набережная"]

/-- City/region resolution of `geocode` (the `city` / `region` block). -/
def cityRegion (normalized : String) : String × Option String :=
  let nl := pyLower normalized
  if pyIn ("санкт-петербург") nl || pyIn ("спб") nl then ("Санкт-Петербург", none)
  else if pyIn ("ленинградская") nl then
    let city :=
      match reSearch patSettlement normalized with
      | some m => pyStripChars (",.") ((m.grp 1).getD "")
      | none => "Санкт-Петербург"
    (city, some ("Ленинградская область"))
  else if pyIn ("москва") nl || pyIn ("мск") nl then ("Москва", none)
  else ("Санкт-Петербург", none)

/-- `f"{name} {ty} {num}, {city}"`, plus `", {region}"` when a region was
resolved, plus the `", Россия"` suffix. -/
def mkQuery (name ty num : String) (cr : String × Option String) : String :=
  let q := name ++ " " ++ ty ++ " " ++ num ++ ", " ++ cr.1
  let q := match cr.2 with | some r => q ++ ", " ++ r | none => q
  q ++ ", Россия"

/-- Result of one lookup attempt inside the `try` block: `done` when the
whole `geocode` call returns (success, or an exception propagating to the
`except` handlers — which `pass`, landing on `return (0.0, 0.0)`);
`next` when the attempt answered `None` and control falls through. -/
inductive Flow : Type where
  | done : Coord × GeoState → Flow
  | next : GeoState → Flow

/-- One `self.geolocator.geocode(q)` call plus the source's handling of
its outcome: on success write the cache (keyed by the normalized string)
and return; on an exception abort with the sentinel; on `None` continue. -/
def attemptQ (env : LookupEnv) (maxSize : Nat) (normalized q : String)
    (st : GeoState) : Flow :=
  let res := env st.calls q
  let st' : GeoState := { st with calls := st.calls + 1 }
  match res with
  | .found c => .done (c, { st' with cache := _add_to_cache maxSize st'.cache normalized c })
  | .notFound => .next st'
  | .err => .done (((0 : ℚ), (0 : ℚ)), st')

/-- The tail of the fallback chain: the full normalized string, then the
normalized string with `", Россия"` appended, then the sentinel. -/
def geocodeFull (env : LookupEnv) (maxSize : Nat) (normalized : String)
    (st : GeoState) : Coord × GeoState :=
  match attemptQ env maxSize normalized normalized st with
  | .done r => r
  | .next st =>
    match attemptQ env maxSize normalized (normalized ++ ", Россия") st with
    | .done r => r
    | .next st => (((0 : ℚ), (0 : ℚ)), st)

/-- `GeocodingService.geocode`. -/
def geocode (env : LookupEnv) (maxSize : Nat) (st : GeoState)
    (address : String) : Coord × GeoState :=
  let normalized := normalize_address address
  match _get_from_cache st.cache normalized with
  | some c => (c, st)
  | none =>
    let street_match :=
      (reSearch patStreet1 normalized).orElse (fun _ => reSearch patStreet2 normalized)
    let house_match := reSearch patHouse normalized
    let corp_match := reSearch patCorp normalized
    let cr := cityRegion normalized
    match street_match, house_match with
    | some sm, some hm =>
      let tyName :=
        if streetTypes.contains (pyLower ((sm.grp 2).getD "")) then
          (((sm.grp 2).getD ""), ((sm.grp 1).getD ""))
        else (((sm.grp 1).getD ""), ((sm.grp 2).getD ""))
      let house_num0 := (hm.grp 1).getD ""
      let house_num :=
        match corp_match with
        | some cm => house_num0 ++ "к" ++ ((cm.grp 1).getD "")
        | none => house_num0
      let optimized := mkQuery tyName.2 tyName.1 house_num cr
      match attemptQ env maxSize normalized optimized st with
      | .done r => r
      | .next st =>
        match corp_match with
        | some _ =>
          let optimized_no_corp := mkQuery tyName.2 tyName.1 house_num0 cr
          match attemptQ env maxSize normalized optimized_no_corp st with
          | .done r => r
          | .next st => geocodeFull env maxSize normalized st
        | none => geocodeFull env maxSize normalized st
    | _, _ => geocodeFull env maxSize normalized st

/-! ### `app/services/task_parser.py` -/

/-- The `ParsedTask` dataclass. -/
structure ParsedTask : Type where
  title : String
  address : String
  description : String
  external_id : Option String := none
  contact_phone : Option String := none
  contact_name : Option String := none
  apartment : Option String := none
  priority : String := TaskPriority.CURRENT.value
deriving DecidableEq, Repr

/-- `r"№(\d+)"` -/
def patExtId : Re := seqL [chr '№', Re.grp 1 (plus digit)]

/-- `r"(\+7\d{10}|[78]\d{10})"` (case-sensitive) -/
def patPhoneAB : Re :=
  Re.grp 1 (altL [seqL [chr '+', chr '7', repN 10 digit],
                  seqL [Re.cls (fun c => c = '7' ∨ c = '8'), repN 10 digit]])

/-- `r"кв\.?\s*(\d+)"` (`re.IGNORECASE`) -/
def patApt : Re := seqL [strCI "кв", opt (chr '.'), spcStar, Re.grp 1 (plus digit)]

/-- `(?:Текущая|Срочная|Плановая|Аварийная)` -/
def prioAlt : Re :=
  altL [strCI "Текущая", strCI "Срочная", strCI "Плановая", strCI "Аварийная"]

/-- `[\.\s]` -/
def dotOrSpc : Re := Re.cls (fun c => c = '.' ∨ isSpc c)

/-- `r"(?:Текущая|Срочная|Плановая|Аварийная)[\.\s]+(.+?подъезд\s*\d+(?:\s*\([^)]+\))?)"`
(`re.IGNORECASE`) -/
def patAddrMain : Re :=
  seqL [prioAlt, plus dotOrSpc,
        Re.grp 1 (seqL [plusLazy dot, strCI "подъезд", spcStar, plus digit,
                        opt (seqL [spcStar, chr '(',
                                   plus (Re.cls (fun c => c ≠ ')')), chr ')'])])]

/-- `r"(?:Текущая|Срочная|Плановая|Аварийная)[\.\s]+(.+?(?:,\s*(?:СПб|Санкт-Петербург|Лен\.?\s*обл)[^.]*?))"`
(`re.IGNORECASE`) -/
def patAddrAlt : Re :=
  seqL [prioAlt, plus dotOrSpc,
        Re.grp 1 (seqL [plusLazy dot, chr ',', spcStar,
                        altL [strCI "СПб", strCI "Санкт-Петербург",
                              seqL [strCI "Лен", opt (chr '.'), spcStar, strCI "обл"]],
                        Re.star false (Re.cls (fun c => c ≠ '.'))])]

/-- `r"(?:Текущая|Срочная|Плановая|Аварийная)[\.\s]+([^.]+)"` (`re.IGNORECASE`) -/
def patAddrSimple : Re :=
  seqL [prioAlt, plus dotOrSpc, Re.grp 1 (plus (Re.cls (fun c => c ≠ '.')))]

/-- `r"\.\s*"` (the split separator for category/description parts) -/
def patDotWs : Re := seqL [chr '.', spcStar]

/-- `r"\+?[78]?\d{10,11}"` -/
def patPhoneSub : Re :=
  seqL [opt (chr '+'), opt (Re.cls (fun c => c = '7' ∨ c = '8')), repRange 10 11 digit]

/-- `r"кв\.?\s*\d+"` (`re.IGNORECASE`) -/
def patKvSub : Re := seqL [strCI "кв", opt (chr '.'), spcStar, plus digit]

/-- `[А-ЯЁ][а-яё]+` -/
def cyrWord : Re := Re.seq (Re.cls isCyrUpper) (plus (Re.cls isCyrLower))

/-- `r"([А-ЯЁ][а-яё]+\s+[А-ЯЁ][а-яё]+(?:\s+[А-ЯЁ][а-яё]+)?)\s*$"` (case-sensitive) -/
def patName : Re :=
  seqL [Re.grp 1 (seqL [cyrWord, spcPlus, cyrWord, opt (Re.seq spcPlus cyrWord)]),
        spcStar, Re.eos]

/-- `r"(Лен\s+обл|Санкт\s+Петербург)"` (`re.IGNORECASE`, used via `re.match`) -/
def patNotName : Re :=
  Re.grp 1 (altL [seqL [strCI "Лен", spcPlus, strCI "обл"],
                  seqL [strCI "Санкт", spcPlus, strCI "Петербург"]])

/-- `text[n:]` by character offset. -/
def strDrop (s : String) (n : Nat) : String := String.mk (s.data.drop n)

/-- `re.sub(r"^[\.\s]+", "", s)`: the pattern is anchored at the string
start, so the substitution deletes exactly the leading run of dots and
whitespace. -/
def dropLeadingDotsWs (s : String) : String :=
  String.mk (s.data.dropWhile (fun c => c = '.' || isSpc c))

/-- The priority block of `parse_dispatcher_format` (source lines 65–72):
`CURRENT` by default, overridden by a case-insensitive search for the
emergency / urgent / planned keywords in that order. -/
def dispatcher_priority (text : String) : String :=
  if (reSearch (strCI "Аварийная") text).isSome then TaskPriority.EMERGENCY.value
  else if (reSearch (strCI "Срочная") text).isSome then TaskPriority.URGENT.value
  else if (reSearch (strCI "Плановая") text).isSome then TaskPriority.PLANNED.value
  else TaskPriority.CURRENT.value

/-- `parse_dispatcher_format`. -/
def parse_dispatcher_format (text : String) : Option ParsedTask :=
  if ¬ pyStarts ("№") (pyStrip text) then none
  else
    let external_id := (reSearch patExtId text).map (fun m => (m.grp 1).getD "")
    let priority := dispatcher_priority text
    let phone_match := reSearch patPhoneAB text
    let contact_phone := phone_match.map (fun m => m.mat)
    let apt_match := reSearch patApt text
    let apartment := apt_match.map (fun m => (m.grp 1).getD "")
    let address_match := reSearch patAddrMain text
    let address :=
      match address_match with
      | some m => pyRStripChars (".") (pyStrip ((m.grp 1).getD ""))
      | none =>
        match reSearch patAddrAlt text with
        | some m => pyRStripChars (".") (pyStrip ((m.grp 1).getD ""))
        | none =>
          match reSearch patAddrSimple text with
          | some m => pyStrip ((m.grp 1).getD "")
          | none => "Не распознан"
    let after_address :=
      match address_match with
      | some m => strDrop text m.endPos
      | none => text
    let after_address := dropLeadingDotsWs after_address
    let parts := ((reSplit patDotWs after_address).map pyStrip).filter (fun p => p ≠ "")
    let category := (parts.head?).getD ""
    let description_parts := if parts.length > 1 then parts.drop 1 else []
    let description := String.intercalate (". ") description_parts
    let description := reSubS patPhoneSub ("") description
    let description := reSubS patKvSub ("") description
    let description := pyStripChars (" .,") (reSubS patWs (" ") description)
    let contact_name :=
      match reSearch patName text with
      | some m =>
        let potential := (m.grp 1).getD ""
        if (reMatch patNotName potential).isSome then none else some potential
      | none => none
    let title :=
      if category ≠ "" then
        match external_id with
        | some eid => "[" ++ eid ++ "] " ++ category
        | none => category
      else
        match external_id with
        | some eid => "Заявка №" ++ eid
        | none => "Новая заявка"
    let address :=
      match apartment with
      | some apt => if address ≠ "Не распознан" then address ++ ", кв. " ++ apt else address
      | none => address
    let full_description := if description ≠ "" then description else category
    let full_description := full_description ++
      (match contact_name with | some n => " | Контакт: " ++ n | none => "")
    let full_description := full_description ++
      (match contact_phone with | some p => " | Тел: " ++ p | none => "")
    some { title := title, address := address, description := full_description,
           external_id := external_id, contact_phone := contact_phone,
           contact_name := contact_name, apartment := apartment,
           priority := priority }

/-- `parse_standard_format`. -/
def parse_standard_format (text : String) : Option ParsedTask :=
  let lines := ((pySplitChar '\n' (pyStrip text)).map pyStrip).filter (fun l => l ≠ "")
  match lines with
  | [] => none
  | [l] => some { title := "Новая заявка", address := l, description := l }
  | l :: rest =>
    let contact_phone := (reSearch patPhoneAB text).map (fun m => m.mat)
    some { title := "Новая заявка", address := l,
           description := String.intercalate (" ") rest,
           contact_phone := contact_phone }

/-- `parse_task_message`. -/
def parse_task_message (text : String) : Option ParsedTask :=
  if text = "" ∨ (pyStrip text).length < 10 then none
  else
    let text := pyStrip text
    if pyStarts ("№") text then
      match parse_dispatcher_format text with
      | some r => some r
      | none => parse_standard_format text
    else parse_standard_format text

/-- `parse_dispatcher_message`: the API wrapper returns
`{"success": True, "data": result.to_dict()}` when `parse_task_message`
yields a result and `{"success": False, "error": ...}` otherwise (the
`except` branch is unreachable in the model since parsing is total);
`success` corresponds to `isSome` here. -/
def parse_dispatcher_message (text : String) : Option ParsedTask :=
  parse_task_message text

/-! ### `app/models/task.py`, `app/schemas/task.py`, `app/utils` -/

/-- The value stored in the `priority` string column.  `TaskService.create`
writes either the integer from the request (`data.priority`, 1–4) or the
string from `extract_priority`; the from-text endpoint writes the parser's
string.  The dual representation is modeled explicitly. -/
inductive PVal : Type where
  | num : Int → PVal
  | str : String → PVal
deriving DecidableEq, Repr

/-- `TaskModel` (the columns the core use cases read or write).
Timestamps are opaque ticks (`Nat`); `completed_at` and `planned_date`
are nullable. -/
structure Task : Type where
  id : Nat
  task_number : Option String := none
  title : String
  raw_address : String
  description : String := ""
  customer_name : Option String := none
  customer_phone : Option String := none
  lat : ℚ := 0
  lon : ℚ := 0
  status : String := "NEW"
  priority : PVal := .str "PLANNED"
  created_at : Nat
  updated_at : Nat
  planned_date : Option Nat := none
  completed_at : Option Nat := none
  assigned_user_id : Option Nat := none
  is_remote : Bool := false
  is_paid : Bool := false
  payment_amount : ℚ := 0
  system_id : Option Nat := none
  system_type : Option String := none
  defect_type : Option String := none
deriving DecidableEq, Repr

/-- `UserModel` (fields the services read). -/
structure User : Type where
  id : Nat
  username : String
  full_name : String
  role : String
  is_active : Bool := true
deriving DecidableEq, Repr

/-- `CommentModel` (the audit-trail row appended by the services). -/
structure Comment : Type where
  task_id : Nat
  text : String
  author : String
  author_id : Option Nat := none
  old_status : Option String := none
  new_status : Option String := none
  old_assignee : Option String := none
  new_assignee : Option String := none
deriving DecidableEq, Repr

/-- A `send_push_notification` emission. -/
structure Push : Type where
  title : String
  body : String
  notification_type : String
  task_id : Nat
  user_ids : List Nat
deriving DecidableEq, Repr

/-- A `create_notification` row (DB notification). -/
structure DbNotif : Type where
  user_id : Nat
  title : String
  message : String
  ntype : String
  task_id : Option Nat
deriving DecidableEq, Repr

/-- `TaskCreate` request schema. -/
structure TaskCreate : Type where
  title : String
  address : String
  description : String := ""
  customer_name : Option String := none
  customer_phone : Option String := none
  status : Option String := none
  priority : Option Int := none
  assigned_user_id : Option Nat := none
  planned_date : Option Nat := none
  is_remote : Option Bool := none
  is_paid : Option Bool := none
  payment_amount : Option ℚ := none
  system_id : Option Nat := none
  system_type : Option String := none
  defect_type : Option String := none
deriving DecidableEq, Repr

/-- `STATUS_DISPLAY_NAMES.get(status, status)` from `app/utils`. -/
def get_status_display_name (status : String) : String :=
  if status = "NEW" then "Новая"
  else if status = "IN_PROGRESS" then "В работе"
  else if status = "DONE" then "Выполнена"
  else if status = "CANCELLED" then "Отменена"
  else status

/-- `f"Z-{id:05d}"`. -/
def zpad5 (n : Nat) : String :=
  let s := toString n
  String.mk (List.replicate (5 - s.length) '0') ++ s

/-- Python truthiness of an optional string (`None` and `""` are falsy). -/
def truthyS (o : Option String) : Bool :=
  match o with
  | some s => s ≠ ""
  | none => false

/-! ### `app/services/task_service.py` -/

/-- The typed errors of the task service.  `invalidTransition` carries the
data interpolated into `InvalidTransitionError`'s message (from-status,
to-status, and `get_valid_transitions(from_status)`). -/
inductive TaskSvcErr : Type where
  | notFound : Nat → TaskSvcErr
  | invalidTransition : String → String → List String → TaskSvcErr
  | other : String → TaskSvcErr
deriving DecidableEq, Repr

/-- The orchestrator's observable state: persisted tasks and comments, the
users table, emitted push notifications and DB notifications, and the
geocoding service's state (shared singleton). -/
structure SvcState : Type where
  tasks : List Task := []
  comments : List Comment := []
  pushes : List Push := []
  dbNotifs : List DbNotif := []
  users : List User := []
  geo : GeoState := ⟨[], 0⟩
deriving DecidableEq, Repr

/-- `create_task_status_notification` from
`app/services/notification_service.py`. -/
def create_task_status_notification (st : SvcState) (task : Task)
    (old_status new_status : String) (changed_by : User) : SvcState :=
  let tn := match task.task_number with | some tn => tn | none => toString task.id
  let tm :=
    if new_status = "DONE" then
      ("✅ Заявка выполнена", "Заявка №" ++ tn ++ " - " ++ task.title ++ " выполнена")
    else if new_status = "IN_PROGRESS" then
      ("🔄 Заявка в работе", "Заявка №" ++ tn ++ " - " ++ task.title ++ " взята в работу")
    else if new_status = "CANCELLED" then
      ("❌ Заявка отменена", "Заявка №" ++ tn ++ " - " ++ task.title ++ " отменена")
    else if new_status = "NEW" then
      ("📋 Новая заявка", "Заявка №" ++ tn ++ " - " ++ task.title)
    else
      ("🔔 Статус заявки изменён", "Заявка №" ++ tn ++ ": " ++ old_status ++ " → " ++ new_status)
  let message := tm.2 ++ "\nИзменил: " ++
    (if changed_by.full_name ≠ "" then changed_by.full_name else changed_by.username)
  let st :=
    match task.assigned_user_id with
    | some aid =>
      if aid ≠ 0 ∧ aid ≠ changed_by.id then
        { st with dbNotifs := st.dbNotifs ++
            [{ user_id := aid, title := tm.1, message := message, ntype := "task",
               task_id := some task.id }] }
      else st
    | none => st
  if new_status = "NEW" ∨ new_status = "IN_PROGRESS" then
    if changed_by.role ≠ "admin" ∧ changed_by.role ≠ "dispatcher" then
      let admins := st.users.filter (fun u =>
        (u.role = "admin" ∨ u.role = "dispatcher") ∧ u.is_active ∧ u.id ≠ changed_by.id)
      { st with dbNotifs := st.dbNotifs ++ admins.map (fun a =>
          { user_id := a.id, title := tm.1, message := message, ntype := "task",
            task_id := some task.id }) }
    else st
  else st

/-- `TaskService._notify_status_change`. -/
def _notify_status_change (st : SvcState) (task : Task) (new_status : String)
    (user : Option User) : SvcState :=
  let doIt : Bool :=
    match task.assigned_user_id, user with
    | some aid, some u => aid ≠ 0 && u.id ≠ aid
    | some aid, none => aid ≠ 0
    | none, _ => false
  if doIt then
    let tn := match task.task_number with | some tn => tn | none => "None"
    { st with pushes := st.pushes ++
        [{ title := "Изменён статус заявки",
           body := "№" ++ tn ++ ": " ++ get_status_display_name new_status,
           notification_type := "status_change", task_id := task.id,
           user_ids := [task.assigned_user_id.getD 0] }] }
  else st

/-- `TaskService.update_status`: validation via the state machine, then the
status / `updated_at` / `completed_at` mutation, the audit comment, the
push to the assignee and the DB notification.  `now` is the tick used for
`datetime.now(timezone.utc)`.  On a validation failure the raised error
propagates before any mutation, so the state is returned unchanged. -/
def update_status (st : SvcState) (task_id : Nat) (new_status : String)
    (comment_text : String) (user : Option User) (now : Nat) :
    SvcState × Except TaskSvcErr Task :=
  match st.tasks.find? (fun t => t.id = task_id) with
  | none => (st, .error (.notFound task_id))
  | some task =>
    let old_status := task.status
    if ¬ TaskStatusMachine.is_valid_transition old_status new_status then
      (st, .error (.invalidTransition old_status new_status
        (TaskStatusMachine.get_valid_transitions old_status)))
    else
      let task := { task with status := new_status, updated_at := now }
      let task :=
        if new_status = "DONE" ∧ old_status ≠ "DONE" then
          { task with completed_at := some now }
        else if new_status ≠ "DONE" then { task with completed_at := none }
        else task
      let author := match user with | some u => u.full_name | none => "Сотрудник"
      let final_comment :=
        if comment_text ≠ "" then comment_text
        else "Статус изменён: " ++ get_status_display_name old_status ++ " → " ++
             get_status_display_name new_status
      let comment : Comment :=
        { task_id := task_id, text := final_comment, author := author,
          author_id := user.map (fun u => u.id),
          old_status := some old_status, new_status := some new_status }
      let st := { st with
        tasks := st.tasks.map (fun t => if t.id = task_id then task else t),
        comments := st.comments ++ [comment] }
      let st := _notify_status_change st task new_status user
      let st :=
        match user with
        | some u => create_task_status_notification st task old_status new_status u
        | none => st
      (st, .ok task)

/-- The status validation of `TaskService.create`:
`data.status if data.status in {s.value for s in TaskStatus} else NEW`
(`None` is not in the set, so it also falls back to NEW). -/
def create_status_value (s? : Option String) : String :=
  match s? with
  | some s => if ["NEW", "IN_PROGRESS", "DONE", "CANCELLED"].contains s then s else "NEW"
  | none => "NEW"

/-- `TaskService.create`: geocode the address, resolve priority (request
value wins over text extraction), extract a dispatcher ticket number from
title/address/description (`""` is falsy, so the first non-empty wins),
validate the requested status against the enum (anything else becomes
NEW), drop a nonexistent assignee, insert the row (with `completed_at`
left at its NULL column default), then set `task_number` (extracted
number, else a generated `Z-xxxxx` from the fresh id). -/
def create (env : LookupEnv) (maxSize : Nat) (st : SvcState) (data : TaskCreate)
    (nextId now : Nat) : SvcState × Task :=
  let geores := geocode env maxSize st.geo data.address
  let priority : PVal :=
    match data.priority with
    | some p => .num p
    | none => .str (extract_priority data.address)
  let tn := extract_task_number data.title
  let tn := if tn ≠ "" then tn else extract_task_number data.address
  let tn := if tn ≠ "" then tn else extract_task_number data.description
  let status := create_status_value data.status
  let assigned_id :=
    match data.assigned_user_id with
    | some aid =>
      if aid ≠ 0 then
        if (st.users.find? (fun u => u.id = aid)).isSome then some aid else none
      else some aid
    | none => none
  let task : Task :=
    { id := nextId, task_number := none, title := data.title,
      raw_address := data.address, description := data.description,
      customer_name := data.customer_name, customer_phone := data.customer_phone,
      lat := geores.1.1, lon := geores.1.2,
      status := status, priority := priority,
      created_at := now, updated_at := now,
      planned_date := data.planned_date,
      completed_at := none,
      assigned_user_id := assigned_id,
      is_remote := data.is_remote.getD false,
      is_paid := data.is_paid.getD false,
      payment_amount := data.payment_amount.getD 0,
      system_id := data.system_id, system_type := data.system_type,
      defect_type := data.defect_type }
  let task := { task with
    task_number := some (if tn ≠ "" then tn else "Z-" ++ zpad5 nextId) }
  ({ st with tasks := st.tasks ++ [task], geo := geores.2 }, task)

/-- `TaskService._notify_assignment` (points of note: the title depends on
`task.priority >= 3`, an integer comparison against the possibly-string
priority — legacy numeric aliases; modeled as the comparison on the
numeric form only). -/
def _notify_assignment (st : SvcState) (task : Task) : SvcState :=
  let hi : Bool := match task.priority with | .num n => n ≥ 3 | .str _ => false
  let title := if hi then "Новая заявка" else "Вам назначена заявка"
  let tn := match task.task_number with | some tn => tn | none => "None"
  { st with pushes := st.pushes ++
      [{ title := title,
         body := "№" ++ tn ++ ": " ++ String.mk (task.title.data.take 50) ++ "...",
         notification_type := "task_assigned", task_id := task.id,
         user_ids := [task.assigned_user_id.getD 0] }] }

/-- `create_task_assignment_notification` from
`app/services/notification_service.py` (self-assignments are skipped). -/
def create_task_assignment_notification (st : SvcState) (task : Task)
    (assigned_to assigned_by : User) : SvcState :=
  if assigned_to.id = assigned_by.id then st
  else
    let tn := match task.task_number with | some tn => tn | none => toString task.id
    { st with dbNotifs := st.dbNotifs ++
        [{ user_id := assigned_to.id, title := "📋 Вам назначена заявка",
           message := "Заявка №" ++ tn ++ " - " ++ task.title ++ "\n",
           ntype := "task", task_id := some task.id }] }

/-- The notification tail of `TaskService.assign`: push + DB notification
to the new assignee when the assignment actually changed to a real user. -/
def assign_notifications (st : SvcState) (task : Task)
    (old_assignee_id : Option Nat) (user : User) : SvcState :=
  match task.assigned_user_id with
  | some aid =>
    if aid ≠ 0 ∧ old_assignee_id ≠ some aid then
      let st := _notify_assignment st task
      match st.users.find? (fun u => u.id = aid) with
      | some assigned_to => create_task_assignment_notification st task assigned_to user
      | none => st
    else st
  | none => st

/-- `TaskService.assign`: validate the target user, mutate the
assignment, append an audit comment only when the assignee actually
changed, and notify the new assignee. -/
def assign (st : SvcState) (task_id : Nat) (assignee_id : Option Nat)
    (user : User) (now : Nat) : SvcState × Except TaskSvcErr Task :=
  match st.tasks.find? (fun t => t.id = task_id) with
  | none => (st, .error (.notFound task_id))
  | some task =>
    let old_assignee_id := task.assigned_user_id
    let truthy : Bool := match assignee_id with | some a => a ≠ 0 | none => false
    let chk : Except TaskSvcErr (Option Nat) :=
      if truthy then
        match st.users.find? (fun u => u.id = assignee_id.getD 0) with
        | none => .error (.other "Пользователь не найден")
        | some assignee => .ok (some assignee.id)
      else .ok none
    match chk with
    | .error e => (st, .error e)
    | .ok newAssignee =>
      let task := { task with assigned_user_id := newAssignee, updated_at := now }
      let st :=
        if old_assignee_id ≠ task.assigned_user_id then
          let nameOf : Option Nat → String := fun o =>
            match o with
            | some uid =>
              match st.users.find? (fun u => u.id = uid) with
              | some u => if u.full_name ≠ "" then u.full_name else u.username
              | none => "Не назначен"
            | none => "Не назначен"
          let old_name := nameOf old_assignee_id
          let new_name := nameOf task.assigned_user_id
          let author := if user.full_name ≠ "" then user.full_name else user.username
          { st with comments := st.comments ++
              [{ task_id := task_id,
                 text := "Назначение изменено: " ++ old_name ++ " → " ++ new_name,
                 author := author, author_id := some user.id,
                 old_assignee := some old_name, new_assignee := some new_name }] }
        else st
      let st := { st with
        tasks := st.tasks.map (fun t => if t.id = task_id then task else t) }
      let st := assign_notifications st task old_assignee_id user
      (st, .ok task)

/-- `TaskService.update_planned_date`: set the planned date and
`updated_at`, append an audit comment.  (`strftime` rendering of the
opaque tick is abstracted to its decimal form; no claim depends on it.) -/
def update_planned_date (st : SvcState) (task_id : Nat)
    (planned_date : Option Nat) (user : Option User) (now : Nat) :
    SvcState × Except TaskSvcErr Task :=
  match st.tasks.find? (fun t => t.id = task_id) with
  | none => (st, .error (.notFound task_id))
  | some task =>
    let task := { task with planned_date := planned_date, updated_at := now }
    let author := match user with | some u => u.full_name | none => "Сотрудник"
    let formatted := match planned_date with | some d => toString d | none => "не указана"
    let st := { st with
      tasks := st.tasks.map (fun t => if t.id = task_id then task else t),
      comments := st.comments ++
        [{ task_id := task_id, text := "Планируемая дата: " ++ formatted,
           author := author, author_id := user.map (fun u => u.id) }] }
    (st, .ok task)

/-! ### `app/api/tasks.py`: the `/from-text` endpoint -/

/-- `CreateTaskFromTextRequest`. -/
structure FromTextRequest : Type where
  text : String
  source : Option String := none
  sender : Option String := none
  assigned_user_id : Option Nat := none
deriving DecidableEq, Repr

/-- `CreateTaskFromTextResponse`. -/
structure FromTextResponse : Type where
  success : Bool
  task : Option Task := none
  parsed_data : Option ParsedTask := none
  error : Option String := none
deriving DecidableEq, Repr

/-- `create_task_from_text` (the auth dependency and the `assign_tasks`
permission guard are out of the core's scope and assumed granted): length
gate, parse, source/sender annotation of the description, geocoding, task
number from the parsed external id (falling back to a generated one),
assignee existence check, and insertion with status NEW and the parsed
priority. -/
def create_task_from_text (env : LookupEnv) (maxSize : Nat) (st : SvcState)
    (req : FromTextRequest) (nextId now : Nat) : SvcState × FromTextResponse :=
  if req.text = "" ∨ (pyStrip req.text).length < 5 then
    (st, { success := false, error := some "Текст сообщения слишком короткий" })
  else
    match parse_dispatcher_message req.text with
    | none =>
      (st, { success := false, error := some "Не удалось распознать формат сообщения" })
    | some parsed =>
      let description := parsed.description
      let description :=
        if truthyS req.source || truthyS req.sender then
          let source_info :=
            (if truthyS req.source then ["Источник: " ++ req.source.getD ""] else []) ++
            (if truthyS req.sender then ["От: " ++ req.sender.getD ""] else [])
          description ++ "\n---\n" ++ String.intercalate (" | ") source_info
        else description
      let address := parsed.address
      let geores := geocode env maxSize st.geo address
      let external_id := parsed.external_id
      let task_number := external_id
      let assigned_id :=
        match req.assigned_user_id with
        | some aid =>
          if aid ≠ 0 then
            if (st.users.find? (fun u => u.id = aid)).isSome then some aid else none
          else some aid
        | none => none
      let task : Task :=
        { id := nextId, task_number := none, title := parsed.title,
          raw_address := address, description := description,
          lat := geores.1.1, lon := geores.1.2,
          status := TaskStatus.NEW.value, priority := .str parsed.priority,
          created_at := now, updated_at := now,
          assigned_user_id := assigned_id }
      let task := { task with
        task_number := some
          (match task_number with
           | some tn => if tn ≠ "" then tn else "Z-" ++ zpad5 nextId
           | none => "Z-" ++ zpad5 nextId) }
      ({ st with tasks := st.tasks ++ [task], geo := geores.2 },
       { success := true, task := some task, parsed_data := some parsed })

/-! ### Claim fixtures -/

/-- The §4.3 transition table exactly as the claim states it (spec-side
data, to be compared with the source's `VALID_TRANSITIONS`). -/
def specTransitionTable : List (TaskStatus × TaskStatus) :=
  [(.NEW, .IN_PROGRESS), (.NEW, .CANCELLED),
   (.IN_PROGRESS, .DONE), (.IN_PROGRESS, .CANCELLED),
   (.DONE, .NEW), (.DONE, .IN_PROGRESS),
   (.CANCELLED, .NEW), (.CANCELLED, .IN_PROGRESS)]

/-- A one-task fixture in the given status. -/
def c1Task (f : TaskStatus) : Task :=
  { id := 1, title := "T", raw_address := "A", created_at := 0, updated_at := 0,
    status := f.value }

/-- A service state holding just `c1Task f`. -/
def c1State (f : TaskStatus) : SvcState := { tasks := [c1Task f] }

/-- The `completed_at` invariant of the spec's §3: non-null iff DONE. -/
def completedInv (t : Task) : Prop := t.completed_at.isSome ↔ t.status = "DONE"

instance (t : Task) : Decidable (completedInv t) := by
  unfold completedInv; infer_instance

/-- The invariant over every persisted task. -/
def invAll (st : SvcState) : Prop := ∀ t ∈ st.tasks, completedInv t

/-- One orchestrator operation, as a relation on service states.  The
`createStep` constructor carries the amended claim's proviso that the
creation request does not itself ask for status DONE; the other use cases
are unrestricted (their error outcomes leave the state unchanged). -/
inductive OrchStep : SvcState → SvcState → Prop where
  | createStep (env : LookupEnv) (maxSize : Nat) (st : SvcState) (data : TaskCreate)
      (nextId now : Nat) (hs : data.status ≠ some "DONE") :
      OrchStep st (create env maxSize st data nextId now).1
  | statusStep (st : SvcState) (task_id : Nat) (ns ct : String) (user : Option User)
      (now : Nat) :
      OrchStep st (update_status st task_id ns ct user now).1
  | assignStep (st : SvcState) (task_id : Nat) (aid : Option Nat) (user : User)
      (now : Nat) :
      OrchStep st (assign st task_id aid user now).1
  | plannedStep (st : SvcState) (task_id : Nat) (pd : Option Nat) (user : Option User)
      (now : Nat) :
      OrchStep st (update_planned_date st task_id pd user now).1

instance {ε α : Type} [DecidableEq ε] [DecidableEq α] : DecidableEq (Except ε α) :=
  fun a b =>
    match a, b with
    | .ok x, .ok y =>
      if h : x = y then .isTrue (by rw [h]) else .isFalse (by intro hc; cases hc; exact h rfl)
    | .error x, .error y =>
      if h : x = y then .isTrue (by rw [h]) else .isFalse (by intro hc; cases hc; exact h rfl)
    | .ok _, .error _ => .isFalse (by intro hc; cases hc)
    | .error _, .ok _ => .isFalse (by intro hc; cases hc)

/-! ## Theorems -/

/-- C1: for each pair of statuses, `is_valid_transition` accepts exactly
the pairs with `from = to` (no-op) or `(from, to)` in the §4.3 table;
`update_status` succeeds precisely on accepted pairs, and on every other
pair rejects with a typed `InvalidTransitionError` carrying the from/to
statuses and `get_valid_transitions(from)` — the valid destinations from
the current state, which its message interpolates. -/
theorem transition_table_complete (f t : TaskStatus) :
    (TaskStatusMachine.is_valid_transition f.value t.value = true
      ↔ (f = t ∨ (f, t) ∈ specTransitionTable))
    ∧ ((update_status (c1State f) 1 t.value "" none 7).2.isOk
        = TaskStatusMachine.is_valid_transition f.value t.value)
    ∧ (TaskStatusMachine.is_valid_transition f.value t.value = false →
        (update_status (c1State f) 1 t.value "" none 7).2
          = .error (.invalidTransition f.value t.value
              (TaskStatusMachine.get_valid_transitions f.value))) := by
  cases f <;> cases t <;> decide

/-- Witness for C1 at the rejected pair NEW → DONE: the typed error names
the valid destinations from NEW. -/
theorem transition_table_complete_witness :
    (update_status (c1State .NEW) 1 "DONE" "" none 7).2
      = .error (.invalidTransition "NEW" "DONE" ["IN_PROGRESS", "CANCELLED"]) :=
  (transition_table_complete .NEW .DONE).2.2 (by decide)

/-- C10: when the requested transition is invalid, `update_status` raises
`InvalidTransitionError` before performing any mutation — the returned
state is exactly the input state (task untouched: status, `completed_at`,
`updated_at` unchanged; no comment appended; no push or DB notification
emitted). -/
theorem update_status_invalid_no_mutation (st : SvcState) (task_id : Nat)
    (new_status comment_text : String) (user : Option User) (now : Nat) (task : Task)
    (hfind : st.tasks.find? (fun t => t.id = task_id) = some task)
    (hinv : TaskStatusMachine.is_valid_transition task.status new_status = false) :
    update_status st task_id new_status comment_text user now
      = (st, .error (.invalidTransition task.status new_status
          (TaskStatusMachine.get_valid_transitions task.status))) := by
  unfold update_status
  rw [hfind]
  simp [hinv]

/-- Witness for C10: a NEW task asked to jump to DONE; the state comes
back unchanged with the typed error. -/
theorem update_status_invalid_no_mutation_witness :
    update_status (c1State .NEW) 1 "DONE" "" none 3
      = (c1State .NEW, .error (.invalidTransition "NEW" "DONE"
          ["IN_PROGRESS", "CANCELLED"])) :=
  update_status_invalid_no_mutation (c1State .NEW) 1 "DONE" "" none 3
    (c1Task .NEW) (by decide) (by decide)

/-- A successful dispatcher parse carries exactly the
`dispatcher_priority` of the input. -/
theorem parse_dispatcher_priority_eq (text : String) (p : ParsedTask)
    (hp : parse_dispatcher_format text = some p) :
    p.priority = dispatcher_priority text := by
  unfold parse_dispatcher_format at hp
  split at hp
  · cases hp
  · injection hp with h
    subst h
    rfl

/-- C9 counterexample: the non-empty input `","` normalizes to the empty
string (the claim asserts normalization never returns an empty result for
a non-empty input). -/
theorem normalize_nonempty_counterexample :
    ("," : String) ≠ "" ∧ normalize_address (",") = "" := by
  exact ⟨by decide, by decide⟩

/-- C9 amended: when the problem-vocabulary segment filter (step 5) keeps
no segments, `normalize_address` falls back to the pre-filter text (the
output of the replacement and cleanup passes), applying only the final
whitespace/punctuation normalization to it — but that fallback can itself
be empty for noise-only inputs, so the result is not always non-empty. -/
theorem normalize_fallback (address : String)
    (hempty : partsKept (cleanupStage (replStage address)) = []) :
    normalize_address address = finalStage (cleanupStage (replStage address)) := by
  unfold normalize_address joinStage
  simp [hempty]

/-- Witness for C9's amended fallback: every segment of `"ремонт"` is
dropped by the problem vocabulary, and the pre-filter text is returned
(after final normalization). -/
theorem normalize_fallback_witness :
    normalize_address ("ремонт") = finalStage (cleanupStage (replStage ("ремонт"))) :=
  normalize_fallback ("ремонт") (by decide)

/-- C7 counterexample: `"№12345 абв"` contains none of the four priority
keyword signals, yet the dispatcher-format parser extracts priority
CURRENT, not the lowest urgency PLANNED. -/
theorem dispatcher_default_counterexample :
    pyIn ("аварийн") (pyLower ("№12345 абв")) = false ∧
    pyIn ("срочн") (pyLower ("№12345 абв")) = false ∧
    pyIn ("текущ") (pyLower ("№12345 абв")) = false ∧
    pyIn ("планов") (pyLower ("№12345 абв")) = false ∧
    (parse_dispatcher_format ("№12345 абв")).map ParsedTask.priority
      = some ("CURRENT") ∧
    ("CURRENT" : String) ≠ "PLANNED" := by
  refine ⟨by decide, by decide, by decide, by decide, by decide, by decide⟩

/-- C7 amended: both extractors always yield one of the four canonical
levels, but their defaults differ: `extract_priority` (used at task
creation) defaults to PLANNED when no keyword signal is present, while
`parse_dispatcher_format` defaults to CURRENT when none of its three
keyword searches match. -/
theorem priority_canonical (text : String) :
    (extract_priority text ∈ (["PLANNED", "CURRENT", "URGENT", "EMERGENCY"] : List String))
    ∧ (pyIn ("аварийн") (pyLower text) = false →
       pyIn ("срочн") (pyLower text) = false →
       pyIn ("текущ") (pyLower text) = false →
       extract_priority text = "PLANNED")
    ∧ (∀ p : ParsedTask, parse_dispatcher_format text = some p →
        (p.priority ∈ (["PLANNED", "CURRENT", "URGENT", "EMERGENCY"] : List String))
        ∧ ((reSearch (strCI ("Аварийная")) text).isSome = false →
           (reSearch (strCI ("Срочная")) text).isSome = false →
           (reSearch (strCI ("Плановая")) text).isSome = false →
           p.priority = "CURRENT")) := by
  refine ⟨?_, ?_, ?_⟩
  · simp only [extract_priority]
    split_ifs <;> decide
  · intro h1 h2 h3
    simp only [extract_priority]
    simp [h1, h2, h3, TaskPriority.value]
  · intro p hp
    rw [parse_dispatcher_priority_eq text p hp]
    constructor
    · simp only [dispatcher_priority]
      split_ifs <;> decide
    · intro h1 h2 h3
      simp only [dispatcher_priority]
      simp [h1, h2, h3, TaskPriority.value]

/-- Witness for C7's amended statement: the signal-free defaults at
concrete inputs (`extract_priority` gives PLANNED, the dispatcher parser
gives CURRENT). -/
theorem priority_canonical_witness :
    extract_priority ("абв") = "PLANNED" ∧
    (parse_dispatcher_format ("№12345 абв")).map ParsedTask.priority
      = some ("CURRENT") := by
  constructor
  · exact (priority_canonical ("абв")).2.1 (by decide) (by decide) (by decide)
  · rcases hmm : parse_dispatcher_format ("№12345 абв") with _ | p
    · exact absurd hmm (by decide)
    · have h := ((priority_canonical ("№12345 абв")).2.2 p hmm).2
        (by decide) (by decide) (by decide)
      simp [h]

/-- An attempt whose lookup answers `None` just advances the call count. -/
theorem attemptQ_next (env : LookupEnv) (maxSize : Nat) (n q : String)
    (st : GeoState) (h : env st.calls q = .notFound) :
    attemptQ env maxSize n q st = .next { st with calls := st.calls + 1 } := by
  simp [attemptQ, h]

/-- An attempt whose lookup raises returns the sentinel at once (the
exception propagates out of the whole `try` block to the `except`
handlers), leaving the cache untouched. -/
theorem attemptQ_abort (env : LookupEnv) (maxSize : Nat) (n q : String)
    (st : GeoState) (h : env st.calls q = .err) :
    attemptQ env maxSize n q st
      = .done ((((0 : ℚ), (0 : ℚ))), { st with calls := st.calls + 1 }) := by
  simp [attemptQ, h]

/-- A successful attempt caches under the normalized key and returns. -/
theorem attemptQ_hit (env : LookupEnv) (maxSize : Nat) (n q : String)
    (st : GeoState) (c : Coord) (h : env st.calls q = .found c) :
    attemptQ env maxSize n q st
      = .done (c, ⟨_add_to_cache maxSize st.cache n c, st.calls + 1⟩) := by
  simp [attemptQ, h]

/-- Under a lookup that never resolves, the tail of the fallback chain
ends in the sentinel. -/
theorem geocodeFull_sentinel (env : LookupEnv) (maxSize : Nat) (n : String)
    (henv : ∀ k q c, env k q ≠ .found c) (st : GeoState) :
    (geocodeFull env maxSize n st).1 = ((0 : ℚ), (0 : ℚ)) := by
  rcases h1 : env st.calls n with c | _ | _
  · exact absurd h1 (henv _ _ _)
  · rcases h2 : env (st.calls + 1) (n ++ ", Россия") with c | _ | _
    · exact absurd h2 (henv _ _ _)
    · simp [geocodeFull, attemptQ, h1, h2]
    · simp [geocodeFull, attemptQ, h1, h2]
  · simp [geocodeFull, attemptQ, h1]

/-- C3: for every lookup behaviour that never yields a coordinate (any
mix of transport/service exceptions and not-found answers on every call)
and every address whose normalization is not already cached, `geocode`
returns exactly the sentinel `(0.0, 0.0)`.  (That it never raises is the
shape of the embedding: every exception path of the source is the `except
... pass` branch, which lands on `return (0.0, 0.0)`.) -/
theorem geocode_failure_sentinel (env : LookupEnv) (maxSize : Nat)
    (st : GeoState) (address : String)
    (henv : ∀ k q c, env k q ≠ .found c)
    (hmiss : _get_from_cache st.cache (normalize_address address) = none) :
    (geocode env maxSize st address).1 = ((0 : ℚ), (0 : ℚ)) := by
  have hstep : ∀ q st', attemptQ env maxSize (normalize_address address) q st'
      = .next { st' with calls := st'.calls + 1 } ∨
      attemptQ env maxSize (normalize_address address) q st'
      = .done ((((0 : ℚ), (0 : ℚ))), { st' with calls := st'.calls + 1 }) := by
    intro q st'
    rcases he : env st'.calls q with c | _ | _
    · exact absurd he (henv _ _ _)
    · exact Or.inl (attemptQ_next env maxSize _ q st' he)
    · exact Or.inr (attemptQ_abort env maxSize _ q st' he)
  simp only [geocode, hmiss]
  cases hsm : (reSearch patStreet1 (normalize_address address)).orElse
      (fun _ => reSearch patStreet2 (normalize_address address)) with
  | none =>
    cases hhm : reSearch patHouse (normalize_address address) with
    | none => exact geocodeFull_sentinel env maxSize _ henv _
    | some hm => exact geocodeFull_sentinel env maxSize _ henv _
  | some sm =>
    cases hhm : reSearch patHouse (normalize_address address) with
    | none => exact geocodeFull_sentinel env maxSize _ henv _
    | some hm =>
      have hone : ∀ q st', (match attemptQ env maxSize (normalize_address address) q st' with
          | Flow.done r => r
          | Flow.next st2 => geocodeFull env maxSize (normalize_address address) st2).1
          = ((0 : ℚ), (0 : ℚ)) := by
        intro q st'
        rcases hstep q st' with h | h
        · simp only [h]
          exact geocodeFull_sentinel env maxSize _ henv _
        · simp only [h]
      have htwo : ∀ q1 q2 st', (match attemptQ env maxSize (normalize_address address) q1 st' with
          | Flow.done r => r
          | Flow.next st2 =>
            match attemptQ env maxSize (normalize_address address) q2 st2 with
            | Flow.done r => r
            | Flow.next st3 => geocodeFull env maxSize (normalize_address address) st3).1
          = ((0 : ℚ), (0 : ℚ)) := by
        intro q1 q2 st'
        rcases hstep q1 st' with h | h
        · simp only [h]
          rcases hstep q2 { st' with calls := st'.calls + 1 } with h2 | h2
          · simp only [h2]
            exact geocodeFull_sentinel env maxSize _ henv _
          · simp only [h2]
        · simp only [h]
      cases hcm : reSearch patCorp (normalize_address address) with
      | none => exact hone _ st
      | some cm => exact htwo _ _ st

/-- Witness for C3: an always-not-found lookup on a fresh service yields
the sentinel for `"x"`. -/
theorem geocode_failure_sentinel_witness :
    (geocode (fun _ _ => LookupResult.notFound) 1000 ⟨[], 0⟩ ("x")).1
      = ((0 : ℚ), (0 : ℚ)) :=
  geocode_failure_sentinel _ 1000 ⟨[], 0⟩ ("x")
    (fun _ _ _ h => LookupResult.noConfusion h) (by decide)

/-- C4 counterexample: the lookup raises on its very first call and would
succeed on any later call; the claim says the resolver continues with the
remaining fallback steps, but `geocode` returns the sentinel having made
exactly one outbound call — the whole chain lives in a single `try`, so
the exception aborts the remaining steps. -/
theorem geocode_exception_counterexample :
    geocode (fun k _ => if k = 0 then LookupResult.err
                        else .found ((1 : ℚ), (1 : ℚ))) 1000 ⟨[], 0⟩ ("x")
      = ((((0 : ℚ), (0 : ℚ))), ⟨[], 1⟩) ∧
    (fun (k : Nat) (_ : String) => if k = 0 then LookupResult.err
                                   else .found ((1 : ℚ), (1 : ℚ))) 1 ("x, Россия")
      = .found ((1 : ℚ), (1 : ℚ)) := by
  exact ⟨by decide, by decide⟩

/-- C4 amended: a transport/service exception at any step is caught (it
never propagates to the caller), but it aborts resolution rather than
continuing the chain: if the lookup raises on the first attempted call,
`geocode` returns the sentinel immediately, with exactly one outbound
call made and no cache write. -/
theorem geocode_exception_aborts (env : LookupEnv) (maxSize : Nat)
    (st : GeoState) (address : String)
    (hmiss : _get_from_cache st.cache (normalize_address address) = none)
    (herr : ∀ q, env st.calls q = .err) :
    geocode env maxSize st address
      = ((((0 : ℚ), (0 : ℚ))), { st with calls := st.calls + 1 }) := by
  have habort : ∀ q, attemptQ env maxSize (normalize_address address) q st
      = .done ((((0 : ℚ), (0 : ℚ))), { st with calls := st.calls + 1 }) :=
    fun q => attemptQ_abort env maxSize _ q st (herr q)
  simp only [geocode, hmiss]
  cases hsm : (reSearch patStreet1 (normalize_address address)).orElse
      (fun _ => reSearch patStreet2 (normalize_address address)) with
  | none =>
    cases hhm : reSearch patHouse (normalize_address address) with
    | none => simp only [geocodeFull, habort]
    | some hm => simp only [geocodeFull, habort]
  | some sm =>
    cases hhm : reSearch patHouse (normalize_address address) with
    | none => simp only [geocodeFull, habort]
    | some hm =>
      cases hcm : reSearch patCorp (normalize_address address) with
      | none => simp only [habort]
      | some cm => simp only [habort]

/-- Witness for C4's amended statement: an always-raising lookup on a
fresh service returns the sentinel for `"x"` after exactly one call. -/
theorem geocode_exception_aborts_witness :
    geocode (fun _ _ => LookupResult.err) 1000 ⟨[], 0⟩ ("x")
      = ((((0 : ℚ), (0 : ℚ))), ⟨[], 1⟩) :=
  geocode_exception_aborts _ 1000 ⟨[], 0⟩ ("x") (by decide) (fun _ => rfl)

/-- Cache evolution of the chain tail: either untouched, or written once
under the normalized key with the returned coordinate. -/
theorem geocodeFull_cache (env : LookupEnv) (maxSize : Nat) (n : String)
    (st : GeoState) :
    ((geocodeFull env maxSize n st).2.cache = st.cache) ∨
    ((geocodeFull env maxSize n st).2.cache
      = _add_to_cache maxSize st.cache n (geocodeFull env maxSize n st).1) := by
  rcases h1 : env st.calls n with c | _ | _
  · right; simp [geocodeFull, attemptQ, h1]
  · rcases h2 : env (st.calls + 1) (n ++ ", Россия") with c | _ | _
    · right; simp [geocodeFull, attemptQ, h1, h2]
    · left; simp [geocodeFull, attemptQ, h1, h2]
    · left; simp [geocodeFull, attemptQ, h1, h2]
  · left; simp [geocodeFull, attemptQ, h1]

/-- Cache evolution of a whole `geocode` call: the only write path is a
single `_add_to_cache` under the normalized address with the returned
coordinate (a cache hit, a not-found chain and an exception all leave the
cache untouched). -/
theorem geocode_cache_write (env : LookupEnv) (maxSize : Nat) (st : GeoState)
    (address : String) :
    ((geocode env maxSize st address).2.cache = st.cache) ∨
    ((geocode env maxSize st address).2.cache
      = _add_to_cache maxSize st.cache (normalize_address address)
          (geocode env maxSize st address).1) := by
  cases hc : _get_from_cache st.cache (normalize_address address) with
  | some c => left; simp [geocode, hc]
  | none =>
    have hone : ∀ q st', (((match attemptQ env maxSize (normalize_address address) q st' with
        | Flow.done r => r
        | Flow.next st2 => geocodeFull env maxSize (normalize_address address) st2)).2.cache
          = st'.cache) ∨
        (((match attemptQ env maxSize (normalize_address address) q st' with
        | Flow.done r => r
        | Flow.next st2 => geocodeFull env maxSize (normalize_address address) st2)).2.cache
          = _add_to_cache maxSize st'.cache (normalize_address address)
              ((match attemptQ env maxSize (normalize_address address) q st' with
                | Flow.done r => r
                | Flow.next st2 => geocodeFull env maxSize (normalize_address address) st2)).1) := by
      intro q st'
      rcases he : env st'.calls q with c | _ | _
      · right; simp [attemptQ, he]
      · have hgf := geocodeFull_cache env maxSize (normalize_address address)
          { st' with calls := st'.calls + 1 }
        simp only [attemptQ_next env maxSize (normalize_address address) q st' he]
        simpa using hgf
      · left; simp [attemptQ, he]
    have htwo : ∀ q1 q2 st', (((match attemptQ env maxSize (normalize_address address) q1 st' with
        | Flow.done r => r
        | Flow.next st2 =>
          match attemptQ env maxSize (normalize_address address) q2 st2 with
          | Flow.done r => r
          | Flow.next st3 => geocodeFull env maxSize (normalize_address address) st3)).2.cache
          = st'.cache) ∨
        (((match attemptQ env maxSize (normalize_address address) q1 st' with
        | Flow.done r => r
        | Flow.next st2 =>
          match attemptQ env maxSize (normalize_address address) q2 st2 with
          | Flow.done r => r
          | Flow.next st3 => geocodeFull env maxSize (normalize_address address) st3)).2.cache
          = _add_to_cache maxSize st'.cache (normalize_address address)
              ((match attemptQ env maxSize (normalize_address address) q1 st' with
                | Flow.done r => r
                | Flow.next st2 =>
                  match attemptQ env maxSize (normalize_address address) q2 st2 with
                  | Flow.done r => r
                  | Flow.next st3 => geocodeFull env maxSize (normalize_address address) st3)).1) := by
      intro q1 q2 st'
      rcases he : env st'.calls q1 with c | _ | _
      · right; simp [attemptQ, he]
      · have hin := hone q2 { st' with calls := st'.calls + 1 }
        simp only [attemptQ_next env maxSize (normalize_address address) q1 st' he]
        simpa using hin
      · left; simp [attemptQ, he]
    simp only [geocode, hc]
    cases hsm : (reSearch patStreet1 (normalize_address address)).orElse
        (fun _ => reSearch patStreet2 (normalize_address address)) with
    | none =>
      cases hhm : reSearch patHouse (normalize_address address) with
      | none => exact geocodeFull_cache env maxSize _ st
      | some hm => exact geocodeFull_cache env maxSize _ st
    | some sm =>
      cases hhm : reSearch patHouse (normalize_address address) with
      | none => exact geocodeFull_cache env maxSize _ st
      | some hm =>
        cases hcm : reSearch patCorp (normalize_address address) with
        | none => exact hone _ st
        | some cm => exact htwo _ _ st

/-- C6 counterexample: with a lookup that always answers not-found, two
`resolve` calls on the same input make four outbound calls in total (two
per call: normalized string, then with the country suffix) — not exactly
one call across the pair, and nothing is cached. -/
theorem geocode_single_lookup_counterexample :
    (geocode (fun _ _ => LookupResult.notFound) 1000 ⟨[], 0⟩ ("x")).2 = ⟨[], 2⟩ ∧
    (geocode (fun _ _ => LookupResult.notFound) 1000 ⟨[], 2⟩ ("x")).2 = ⟨[], 4⟩ := by
  exact ⟨by decide, by decide⟩

/-- C6 amended: the only write path to the cache is a successful lookup,
which stores the returned coordinate under the normalized address; and
when the first `resolve` has cached its result, a second `resolve` whose
input normalizes to the same string is answered entirely from the cache —
the same coordinate, zero additional outbound calls, no state change.
(When the first call fails, each of the pair performs its own outbound
fallback calls, so "exactly one outbound lookup across the two calls"
holds only for the successful case.) -/
theorem geocode_cache_pair (env : LookupEnv) (maxSize : Nat) (st : GeoState)
    (a1 a2 : String) (c1 : Coord) (st1 : GeoState)
    (hnorm : normalize_address a1 = normalize_address a2)
    (hrun : geocode env maxSize st a1 = (c1, st1))
    (hcached : _get_from_cache st1.cache (normalize_address a1) = some c1) :
    geocode env maxSize st1 a2 = (c1, st1) ∧
    (st1.cache = st.cache ∨
      st1.cache = _add_to_cache maxSize st.cache (normalize_address a1) c1) := by
  constructor
  · have hhit : _get_from_cache st1.cache (normalize_address a2) = some c1 := by
      rw [← hnorm]; exact hcached
    simp [geocode, hhit]
  · have hw := geocode_cache_write env maxSize st a1
    rw [hrun] at hw
    simpa using hw

/-- Witness for C6's amended statement: the first `resolve` of `"x"`
succeeded and cached `(1, 2)`; the second returns the cached coordinate
with the call counter unchanged. -/
theorem geocode_cache_pair_witness :
    geocode (fun _ _ => LookupResult.found ((1 : ℚ), (2 : ℚ))) 1000
        ⟨[("x", ((1 : ℚ), (2 : ℚ)))], 1⟩ ("x")
      = (((1 : ℚ), (2 : ℚ)), ⟨[("x", ((1 : ℚ), (2 : ℚ)))], 1⟩) :=
  (geocode_cache_pair (fun _ _ => LookupResult.found ((1 : ℚ), (2 : ℚ))) 1000
    ⟨[], 0⟩ ("x") ("x") ((1 : ℚ), (2 : ℚ)) ⟨[("x", ((1 : ℚ), (2 : ℚ)))], 1⟩
    rfl (by decide) (by decide)).1

/-- Push emission never touches the tasks table. -/
theorem notify_status_change_tasks (st : SvcState) (task : Task) (ns : String)
    (user : Option User) :
    (_notify_status_change st task ns user).tasks = st.tasks := by
  unfold _notify_status_change
  split <;> first
  | rfl
  | (dsimp only; split_ifs <;> rfl)

/-- DB status notifications never touch the tasks table. -/
theorem status_notification_tasks (st : SvcState) (task : Task)
    (os ns : String) (u : User) :
    (create_task_status_notification st task os ns u).tasks = st.tasks := by
  unfold create_task_status_notification
  rcases task.assigned_user_id with _ | aid <;> (dsimp only; split_ifs <;> rfl)

/-- Assignment pushes never touch the tasks table. -/
theorem notify_assignment_tasks (st : SvcState) (task : Task) :
    (_notify_assignment st task).tasks = st.tasks := by
  rfl

/-- DB assignment notifications never touch the tasks table. -/
theorem assignment_notification_tasks (st : SvcState) (task : Task)
    (ato aby : User) :
    (create_task_assignment_notification st task ato aby).tasks = st.tasks := by
  unfold create_task_assignment_notification
  split_ifs <;> rfl

/-- `update_status` preserves the `completed_at` invariant: a successful
transition re-establishes it (the timestamp is set exactly when entering
DONE and cleared when leaving it; a DONE→DONE no-op keeps the already
valid value), and error paths return the state unchanged. -/
theorem update_status_inv (st : SvcState) (i : Nat) (ns ct : String)
    (user : Option User) (now : Nat) (hall : invAll st) :
    invAll (update_status st i ns ct user now).1 := by
  unfold update_status
  cases hf : st.tasks.find? (fun t => t.id = i) with
  | none => exact hall
  | some task =>
    have hmem : task ∈ st.tasks := List.mem_of_find?_eq_some hf
    by_cases hv : TaskStatusMachine.is_valid_transition task.status ns = true
    · simp only [hv, not_true, ite_false]
      intro t ht
      cases user with
      | none =>
        simp only [notify_status_change_tasks] at ht
        simp only [List.mem_map] at ht
        obtain ⟨orig, horig, rfl⟩ := ht
        by_cases hid : orig.id = i
        · simp only [if_pos hid]
          by_cases h1 : ns = "DONE" ∧ task.status ≠ "DONE"
          · simp only [if_pos h1, completedInv]
            simp [h1.1]
          · simp only [if_neg h1]
            by_cases h2 : ns ≠ "DONE"
            · simp only [if_pos h2, completedInv]
              simp [h2]
            · simp only [if_neg h2]
              push_neg at h2
              have hts : task.status = "DONE" := by
                by_contra hc
                exact h1 ⟨h2, hc⟩
              have := hall task hmem
              simp only [completedInv] at this ⊢
              simp [h2, hts] at this ⊢
              exact this
        · simp only [if_neg hid]
          exact hall orig horig
      | some u =>
        simp only [status_notification_tasks, notify_status_change_tasks] at ht
        simp only [List.mem_map] at ht
        obtain ⟨orig, horig, rfl⟩ := ht
        by_cases hid : orig.id = i
        · simp only [if_pos hid]
          by_cases h1 : ns = "DONE" ∧ task.status ≠ "DONE"
          · simp only [if_pos h1, completedInv]
            simp [h1.1]
          · simp only [if_neg h1]
            by_cases h2 : ns ≠ "DONE"
            · simp only [if_pos h2, completedInv]
              simp [h2]
            · simp only [if_neg h2]
              push_neg at h2
              have hts : task.status = "DONE" := by
                by_contra hc
                exact h1 ⟨h2, hc⟩
              have := hall task hmem
              simp only [completedInv] at this ⊢
              simp [h2, hts] at this ⊢
              exact this
        · simp only [if_neg hid]
          exact hall orig horig
    · have hv2 : TaskStatusMachine.is_valid_transition task.status ns = false :=
        Bool.eq_false_iff.mpr hv
      simp only [hv2]
      simp only [Bool.false_eq_true, not_false_iff, ite_true]
      exact hall

/-- The assignment-notification tail never touches the tasks table. -/
theorem assign_notifications_tasks (st : SvcState) (task : Task)
    (old : Option Nat) (user : User) :
    (assign_notifications st task old user).tasks = st.tasks := by
  unfold assign_notifications
  cases task.assigned_user_id with
  | none => rfl
  | some aid =>
    dsimp only
    split_ifs with h
    · cases hu : (_notify_assignment st task).users.find? (fun u => u.id = aid) with
      | none => rfl
      | some ato =>
        rw [assignment_notification_tasks]
        exact notify_assignment_tasks st task
    · rfl

/-- `assign` preserves the `completed_at` invariant: it never touches
`status` or `completed_at`, and its error paths return the state
unchanged. -/
theorem assign_inv (st : SvcState) (i : Nat) (aid : Option Nat) (user : User)
    (now : Nat) (hall : invAll st) : invAll (assign st i aid user now).1 := by
  unfold assign
  cases hf : st.tasks.find? (fun t => t.id = i) with
  | none => exact hall
  | some task =>
    have hmem : task ∈ st.tasks := List.mem_of_find?_eq_some hf
    have hinv : ∀ newA : Option Nat,
        completedInv { task with assigned_user_id := newA, updated_at := now } := by
      intro newA
      have := hall task hmem
      simpa [completedInv] using this
    dsimp only
    cases aid with
    | none =>
      intro t ht
      simp [assign_notifications_tasks] at ht
      split at ht <;>
        (obtain ⟨orig, horig, heq⟩ := ht
         subst heq
         by_cases hid : orig.id = i
         · simp only [if_pos hid]
           exact hinv none
         · simp only [if_neg hid]
           exact hall orig horig)
    | some a =>
      by_cases ha : a = 0
      · subst ha
        intro t ht
        simp [assign_notifications_tasks] at ht
        split at ht <;>
          (obtain ⟨orig, horig, heq⟩ := ht
           subst heq
           by_cases hid : orig.id = i
           · simp only [if_pos hid]
             exact hinv none
           · simp only [if_neg hid]
             exact hall orig horig)
      · have hd : (decide (a ≠ 0)) = true := by simp [ha]
        simp only [hd]
        cases hu : st.users.find? (fun u => u.id = a) with
        | none =>
          simp only [Option.getD, hu, if_true]
          exact hall
        | some assignee =>
          simp only [Option.getD, hu, if_true]
          intro t ht
          simp [assign_notifications_tasks] at ht
          split at ht <;>
            (obtain ⟨orig, horig, heq⟩ := ht
             subst heq
             by_cases hid : orig.id = i
             · simp only [if_pos hid]
               exact hinv (some assignee.id)
             · simp only [if_neg hid]
               exact hall orig horig)

/-- `update_planned_date` preserves the `completed_at` invariant. -/
theorem planned_inv (st : SvcState) (i : Nat) (pd : Option Nat)
    (user : Option User) (now : Nat) (hall : invAll st) :
    invAll (update_planned_date st i pd user now).1 := by
  unfold update_planned_date
  cases hf : st.tasks.find? (fun t => t.id = i) with
  | none => exact hall
  | some task =>
    have hmem : task ∈ st.tasks := List.mem_of_find?_eq_some hf
    dsimp only
    intro t ht
    simp at ht
    obtain ⟨orig, horig, heq⟩ := ht
    subst heq
    by_cases hid : orig.id = i
    · simp only [if_pos hid]
      have := hall task hmem
      simpa [completedInv] using this
    · simp only [if_neg hid]
      exact hall orig horig

/-- `create` preserves the `completed_at` invariant provided the request
does not itself carry status DONE: the new row has `completed_at` NULL
and a status validated to something other than DONE. -/
theorem create_inv (env : LookupEnv) (maxSize : Nat) (st : SvcState)
    (data : TaskCreate) (nextId now : Nat) (hall : invAll st)
    (hs : data.status ≠ some "DONE") :
    invAll (create env maxSize st data nextId now).1 := by
  intro t ht
  have ht' : t ∈ st.tasks ++ [(create env maxSize st data nextId now).2] := ht
  rcases List.mem_append.mp ht' with h | h
  · exact hall t h
  · have heq : t = (create env maxSize st data nextId now).2 := by simpa using h
    subst heq
    have hc : (create env maxSize st data nextId now).2.completed_at = none := rfl
    have hgen : ∀ s? : Option String, s? ≠ some "DONE" → create_status_value s? ≠ "DONE" := by
      intro s? hs'
      unfold create_status_value
      rcases s? with _ | s
      · decide
      · show (if (["NEW", "IN_PROGRESS", "DONE", "CANCELLED"] : List String).contains s = true
              then s else "NEW") ≠ "DONE"
        by_cases hcs : (["NEW", "IN_PROGRESS", "DONE", "CANCELLED"] : List String).contains s = true
        · rw [if_pos hcs]
          intro heq
          exact hs' (by rw [heq])
        · rw [if_neg hcs]
          decide
    have hstt : (create env maxSize st data nextId now).2.status ≠ "DONE" := by
      show create_status_value data.status ≠ "DONE"
      exact hgen data.status hs
    simp [completedInv, hc, hstt]

/-- C2 counterexample: a creation request that carries status DONE yields
a persisted task whose status is DONE but whose `completed_at` is null —
`create` never sets `completed_at`, so the iff is violated by a task
reachable through the orchestrator's own create operation. -/
theorem create_done_counterexample :
    (create (fun _ _ => LookupResult.notFound) 1000 {}
        { title := "T", address := "x", status := some ("DONE") } 1 0).2.status
      = "DONE" ∧
    (create (fun _ _ => LookupResult.notFound) 1000 {}
        { title := "T", address := "x", status := some ("DONE") } 1 0).2.completed_at
      = none ∧
    ¬ completedInv (create (fun _ _ => LookupResult.notFound) 1000 {}
        { title := "T", address := "x", status := some ("DONE") } 1 0).2 := by
  refine ⟨by decide, by decide, by decide⟩

/-- C2 amended: for every service state satisfying the invariant
"`completed_at` is non-null iff status is DONE" (for instance the empty
state), every state reachable through the orchestrator's operations —
`create` restricted to requests whose status is not DONE, and arbitrary
`update_status` / `assign` / `update_planned_date` calls — satisfies it
for every persisted task; in particular any transition out of DONE clears
`completed_at` and a task created with a non-DONE status has it null.
(Creating directly with status DONE violates the invariant, see the
counterexample.) -/
theorem completed_iff_done (st st2 : SvcState) (hall : invAll st)
    (hreach : Relation.ReflTransGen OrchStep st st2) : invAll st2 := by
  induction hreach with
  | refl => exact hall
  | tail hab hbc ih =>
    cases hbc with
    | createStep _ _ _ _ _ _ hs => exact create_inv _ _ _ _ _ _ ih hs
    | statusStep _ _ _ _ _ _ => exact update_status_inv _ _ _ _ _ _ ih
    | assignStep _ _ _ _ _ => exact assign_inv _ _ _ _ _ ih
    | plannedStep _ _ _ _ _ => exact planned_inv _ _ _ _ _ ih

/-- Witness for C2's amended statement: one create step (status NEW) from
the empty state keeps the invariant. -/
theorem completed_iff_done_witness :
    invAll (create (fun _ _ => LookupResult.notFound) 1000 {}
      { title := "T", address := "x", status := some ("NEW") } 1 0).1 :=
  completed_iff_done {} _
    (by intro t ht; cases ht)
    (Relation.ReflTransGen.single
      (OrchStep.createStep (fun _ _ => LookupResult.notFound) 1000 {}
        { title := "T", address := "x", status := some ("NEW") } 1 0 (by decide)))

/-- C8: whenever the from-text endpoint's input passes the length gate
and parses as a dispatcher (Format-A) message carrying an external ticket
id, the endpoint returns success with a task whose status is NEW, whose
`task_number` equals the extracted external id, and whose priority is
exactly the parsed priority value. -/
theorem from_text_round_trip (env : LookupEnv) (maxSize : Nat) (st : SvcState)
    (req : FromTextRequest) (nextId now : Nat) (p : ParsedTask) (eid : String)
    (hlen : ¬(req.text = "" ∨ (pyStrip req.text).length < 5))
    (hp : parse_dispatcher_message req.text = some p)
    (heid : p.external_id = some eid)
    (hne : eid ≠ "") :
    ((create_task_from_text env maxSize st req nextId now).2.success = true) ∧
    ∃ t : Task, (create_task_from_text env maxSize st req nextId now).2.task = some t ∧
      t.status = "NEW" ∧ t.task_number = some eid ∧ t.priority = .str p.priority := by
  unfold create_task_from_text
  rw [if_neg hlen, hp]
  refine ⟨rfl, ?_⟩
  refine ⟨_, rfl, rfl, ?_, rfl⟩
  show some (match p.external_id with
        | some tn => if tn ≠ "" then tn else "Z-" ++ zpad5 nextId
        | none => "Z-" ++ zpad5 nextId) = some eid
  rw [heid]
  show some (if eid ≠ "" then eid else "Z-" ++ zpad5 nextId) = some eid
  rw [if_pos hne]

/-- Witness for C8 on a concrete Format-A message with ticket id 12345. -/
theorem from_text_round_trip_witness :
    ∃ t : Task,
      (create_task_from_text (fun _ _ => LookupResult.notFound) 1000 {}
        { text := "№12345 Текущая. А, подъезд 1. Б" } 1 0).2.task = some t ∧
      t.status = "NEW" ∧ t.task_number = some ("12345") := by
  rcases hmm : parse_dispatcher_message ("№12345 Текущая. А, подъезд 1. Б") with _ | p
  · exact absurd hmm (by decide)
  · have hx : p.external_id = some ("12345") := by
      have h1 : (parse_dispatcher_message ("№12345 Текущая. А, подъезд 1. Б")).map
          ParsedTask.external_id = some (some ("12345")) := by decide
      rw [hmm] at h1
      simpa using h1
    have h := from_text_round_trip (fun _ _ => LookupResult.notFound) 1000 {}
      { text := "№12345 Текущая. А, подъезд 1. Б" } 1 0 p ("12345")
      (by decide) hmm hx (by decide)
    obtain ⟨hs, t, ht, h1, h2, h3⟩ := h
    exact ⟨t, ht, h1, h2⟩

/-- `List.dropWhile` is idempotent. -/
theorem dw_idem (p : Char → Bool) (l : List Char) :
    (l.dropWhile p).dropWhile p = l.dropWhile p := by
  induction l with
  | nil => rfl
  | cons c t ih =>
    by_cases h : p c = true
    · simp [List.dropWhile_cons, h, ih]
    · simp [List.dropWhile_cons, h]

/-- The head surviving `dropWhile p` does not satisfy `p`. -/
theorem dw_head (p : Char → Bool) (l : List Char) {c : Char} {t : List Char}
    (h : l.dropWhile p = c :: t) : p c = false := by
  induction l with
  | nil => cases h
  | cons x xs ih =>
    by_cases hx : p x = true
    · rw [List.dropWhile_cons, if_pos hx] at h
      exact ih h
    · rw [List.dropWhile_cons, if_neg hx] at h
      cases h
      simpa using hx

/-- `dropEnd` is idempotent. -/
theorem dropEnd_idem (p : Char → Bool) (l : List Char) :
    dropEnd p (dropEnd p l) = dropEnd p l := by
  induction l with
  | nil => rfl
  | cons c t ih =>
    cases hdt : dropEnd p t with
    | nil =>
      by_cases h : p c = true
      · simp [dropEnd, hdt, h]
      · simp [dropEnd, hdt, h]
    | cons d r =>
      rw [hdt] at ih
      have hct : dropEnd p (c :: t) = c :: d :: r := by
        show (match dropEnd p t with
              | [] => if p c = true then [] else [c]
              | r2 => c :: r2) = c :: d :: r
        rw [hdt]
      rw [hct]
      show (match dropEnd p (d :: r) with
            | [] => if p c = true then [] else [c]
            | r2 => c :: r2) = c :: d :: r
      rw [ih]

/-- A non-empty `dropEnd` result keeps the input's head. -/
theorem dropEnd_head (p : Char → Bool) (l : List Char) {c : Char} {r : List Char}
    (h : dropEnd p l = c :: r) : ∃ r2, l = c :: r2 := by
  cases l with
  | nil => cases h
  | cons x xs =>
    refine ⟨xs, ?_⟩
    unfold dropEnd at h
    cases hdt : dropEnd p xs with
    | nil =>
      rw [hdt] at h
      by_cases hx : p x = true
      · rw [if_pos hx] at h; cases h
      · rw [if_neg hx] at h; cases h; rfl
    | cons d r2 =>
      rw [hdt] at h
      cases h
      rfl

/-- Trimming the right end cannot create new leading characters to
drop. -/
theorem dw_dropEnd (p : Char → Bool) (l : List Char) (h : l.dropWhile p = l) :
    (dropEnd p l).dropWhile p = dropEnd p l := by
  cases l with
  | nil => rfl
  | cons c t =>
    have hc : p c = false := dw_head p (c :: t) h
    cases hdt : dropEnd p t with
    | nil =>
      simp [dropEnd, hdt, hc, List.dropWhile_cons]
    | cons d r =>
      simp [dropEnd, hdt, hc, List.dropWhile_cons]

/-- Python `str.strip()` is idempotent. -/
theorem pyStrip_idem (s : String) : pyStrip (pyStrip s) = pyStrip s := by
  unfold pyStrip pyStripP
  congr 1
  show dropEnd isSpc (List.dropWhile isSpc
    (dropEnd isSpc (s.data.dropWhile isSpc))) = dropEnd isSpc (s.data.dropWhile isSpc)
  rw [dw_dropEnd isSpc _ (dw_idem isSpc s.data)]
  exact dropEnd_idem isSpc _

/-- `str.split` never returns an empty list. -/
theorem splitCh_ne_nil (sep : Char) (l : List Char) : splitCh sep l ≠ [] := by
  cases l with
  | nil => simp [splitCh]
  | cons c t =>
    by_cases h : c = sep
    · simp [splitCh, h]
    · simp only [splitCh, if_neg h]
      cases splitCh sep t <;> simp

/-- Once the trimmed text starts with the ticket marker, the dispatcher
parser always produces a `ParsedTask` (it has no other failure exit). -/
theorem dispatcher_some (t : String) (h : pyStarts ("№") (pyStrip t) = true) :
    (parse_dispatcher_format t).isSome = true := by
  unfold parse_dispatcher_format
  rw [h]
  simp

/-- The standard parser succeeds on any already-stripped text whose
first character is not whitespace: the first line survives the
line-filter, so `lines` is non-empty. -/
theorem standard_some (t : String) (c : Char) (rest : List Char)
    (hd : t.data = c :: rest) (hc : isSpc c = false) (hidem : pyStrip t = t) :
    (parse_standard_format t).isSome = true := by
  unfold parse_standard_format
  rw [hidem]
  have hcn : ¬ c = '\n' := by
    intro he
    rw [he] at hc
    simp [isSpc] at hc
  have hsplit : ∃ p ps, splitCh '\n' t.data = (c :: p) :: ps := by
    rw [hd]
    show ∃ p ps, (if c = '\n' then [] :: splitCh '\n' rest
      else match splitCh '\n' rest with
           | [] => [[c]]
           | p :: ps => (c :: p) :: ps) = (c :: p) :: ps
    rw [if_neg hcn]
    cases hs : splitCh '\n' rest with
    | nil => exact absurd hs (splitCh_ne_nil '\n' rest)
    | cons p ps => exact ⟨p, ps, rfl⟩
  obtain ⟨p, ps, hsp⟩ := hsplit
  have hstrip_ne : pyStrip (String.mk (c :: p)) ≠ "" := by
    unfold pyStrip pyStripP
    intro he
    have hdata : dropEnd isSpc ((c :: p).dropWhile isSpc) = [] := by
      have := congrArg String.data he
      simpa using this
    rw [List.dropWhile_cons, if_neg (by simp [hc])] at hdata
    unfold dropEnd at hdata
    cases hdt : dropEnd isSpc p with
    | nil => rw [hdt] at hdata; rw [if_neg (by simp [hc])] at hdata; cases hdata
    | cons d r => rw [hdt] at hdata; cases hdata
  have hmem : pyStrip (String.mk (c :: p)) ∈
      ((pySplitChar '\n' t).map pyStrip).filter (fun l => l ≠ "") := by
    rw [List.mem_filter]
    constructor
    · apply List.mem_map_of_mem
      unfold pySplitChar
      rw [hsp]
      exact List.mem_map_of_mem _ (by simp)
    · simpa using hstrip_ne
  have hne : ((pySplitChar '\n' t).map pyStrip).filter (fun l => l ≠ "") ≠ [] :=
    List.ne_nil_of_mem hmem
  cases hl : ((pySplitChar '\n' t).map pyStrip).filter (fun l => l ≠ "") with
  | nil => exact absurd hl hne
  | cons l ls =>
    cases ls <;> simp

/-- C5: `parse_task_message` returns `None` (a parse failure) if and
only if the trimmed input is below the 10-character minimum length; at
or above the threshold it always returns a structured `ParsedTask` —
the dispatcher branch has no failure exit once the marker is present,
and the standard format is an unconditional fallback. -/
theorem parse_total (text : String) :
    parse_task_message text = none ↔ (pyStrip text).length < 10 := by
  constructor
  · intro hnone
    by_contra hlen
    have hcond : ¬ (text = "" ∨ (pyStrip text).length < 10) := by
      rintro (he | hl)
      · subst he
        exact hlen (by decide)
      · exact hlen hl
    unfold parse_task_message at hnone
    rw [if_neg hcond] at hnone
    dsimp only at hnone
    have hlen10 : 10 ≤ (pyStrip text).length := Nat.le_of_not_lt hlen
    have hne : (pyStrip text).data ≠ [] := by
      intro he
      rw [show (pyStrip text).length = (pyStrip text).data.length from rfl, he] at hlen10
      simp at hlen10
    obtain ⟨c, rest, hd⟩ : ∃ c rest, (pyStrip text).data = c :: rest := by
      cases hdd : (pyStrip text).data with
      | nil => exact absurd hdd hne
      | cons c r => exact ⟨c, r, rfl⟩
    have hc : isSpc c = false := by
      have hd' : dropEnd isSpc (text.data.dropWhile isSpc) = c :: rest := hd
      obtain ⟨r2, hr2⟩ := dropEnd_head isSpc _ hd'
      exact dw_head isSpc text.data hr2
    have hidem := pyStrip_idem text
    by_cases hns : pyStarts ("№") (pyStrip text) = true
    · rw [if_pos hns] at hnone
      have hds := dispatcher_some (pyStrip text) (by rw [hidem]; exact hns)
      cases hpd : parse_dispatcher_format (pyStrip text) with
      | none => rw [hpd] at hds; cases hds
      | some r =>
        rw [hpd] at hnone
        cases hnone
    · rw [if_neg hns] at hnone
      have hss := standard_some (pyStrip text) c rest hd hc hidem
      rw [hnone] at hss
      simp at hss
  · intro h
    unfold parse_task_message
    rw [if_pos (Or.inr h)]
